import Mathlib

/-!
Product catalog backend (`backend/main.go`).

A shallow embedding of the in-memory product store and of the HTTP handlers
that sit on top of it.

Modelling conventions.

* `map[string]Product` is an association list with pairwise distinct keys
  (`AList`).  Assignment `m[k] = v` is `AList.insert`, `delete(m, k)` is
  `AList.erase`, the two-valued read `v, ok := m[k]` is `AList.lookup`.  The
  order of the entries stands for Go's unspecified iteration order; no result
  below depends on it.
* `float64` prices are taken in `ℚ`: the prices that reach the store come from
  source literals or from `encoding/json`, which yields finite values only.
* `uuid.New().String()` and `time.Now().Unix()` read the environment; the
  value each call returns is an explicit argument of the function that makes
  the call.
* `sync.RWMutex` only serialises the operations; every operation is modelled
  as one atomic step on the store.
* Methods with a pointer receiver return the receiver's new state next to
  their Go result.
-/

namespace Backend

/-- Product represents a product entity. -/
structure Product where
  ID : String
  Name : String
  Price : ℚ
  Category : String
  InStock : Bool
deriving DecidableEq

/-- The zero value `Product{}`. -/
def Product.zero : Product :=
  { ID := "", Name := "", Price := 0, Category := "", InStock := false }

/-- ProductStore manages products in memory. -/
structure ProductStore where
  products : AList (fun _ : String => Product)
deriving DecidableEq

/-- The slice literal `mockProducts` of `NewProductStore`; `u1 .. u5` are the
results of its five `uuid.New().String()` calls, in source order. -/
def mockProducts (u1 u2 u3 u4 u5 : String) : List Product :=
  [ { ID := u1, Name := "Wireless Mouse", Price := 29.99,
      Category := "Electronics", InStock := true },
    { ID := u2, Name := "Mechanical Keyboard", Price := 89.99,
      Category := "Electronics", InStock := true },
    { ID := u3, Name := "USB-C Cable", Price := 12.99,
      Category := "Accessories", InStock := false },
    { ID := u4, Name := "Laptop Stand", Price := 45.00,
      Category := "Accessories", InStock := true },
    { ID := u5, Name := "Webcam HD", Price := 79.99,
      Category := "Electronics", InStock := true } ]

/-- NewProductStore creates a new product store with mock data. -/
def NewProductStore (u1 u2 u3 u4 u5 : String) : ProductStore :=
  (mockProducts u1 u2 u3 u4 u5).foldl
    (fun store p => { products := store.products.insert p.ID p })
    { products := ∅ }

namespace ProductStore

/-- The number of records, `len(s.products)`. -/
def len (s : ProductStore) : Nat :=
  s.products.entries.length

/-- GetAll returns all products. -/
def GetAll (s : ProductStore) : List Product :=
  s.products.entries.map (fun e => e.2)

/-- GetByID returns a product by ID. -/
def GetByID (s : ProductStore) (id : String) : Product × Bool :=
  match s.products.lookup id with
  | some product => (product, true)
  | none => (Product.zero, false)

/-- Create adds a new product; `uuid` is what `uuid.New().String()` returns. -/
def Create (s : ProductStore) (product : Product) (uuid : String) :
    ProductStore × Product :=
  let product := { product with ID := uuid }
  let product := { product with InStock := true }
  ({ products := s.products.insert product.ID product }, product)

/-- Update modifies an existing product. -/
def Update (s : ProductStore) (id : String) (product : Product) :
    ProductStore × (Product × Bool) :=
  match s.products.lookup id with
  | none => (s, (Product.zero, false))
  | some _ =>
    let product := { product with ID := id }
    ({ products := s.products.insert id product }, (product, true))

/-- Delete removes a product. -/
def Delete (s : ProductStore) (id : String) : ProductStore × Bool :=
  match s.products.lookup id with
  | none => (s, false)
  | some _ => ({ products := s.products.erase id }, true)

end ProductStore

/-- The store states that a running server can be in: the initial store of
`NewProductStore`, followed by any sequence of `Create`, `Update` and `Delete`
calls. -/
inductive Reachable : ProductStore → Prop
  | init (u1 u2 u3 u4 u5 : String) : Reachable (NewProductStore u1 u2 u3 u4 u5)
  | create (s : ProductStore) (product : Product) (uuid : String) :
      Reachable s → Reachable (s.Create product uuid).1
  | update (s : ProductStore) (id : String) (product : Product) :
      Reachable s → Reachable (s.Update id product).1
  | delete (s : ProductStore) (id : String) :
      Reachable s → Reachable (s.Delete id).1

namespace strings

/-- HasPrefix reports whether the string `s` begins with `pre`. -/
def HasPrefix (s pre : String) : Bool :=
  pre.data.isPrefixOf s.data

/-- TrimPrefix returns `s` without the leading string `pre`; if `s` does not
start with `pre`, `s` is returned unchanged. -/
def TrimPrefix (s pre : String) : String :=
  if HasPrefix s pre then String.mk (s.data.drop pre.data.length) else s

end strings

namespace path

/-- The elements of a path: the pieces between its slashes, in order. -/
def elements : List Char → List (List Char)
  | [] => [[]]
  | c :: cs =>
    if c = '/' then [] :: elements cs
    else
      match elements cs with
      | [] => [[c]]
      | e :: es => (c :: e) :: es

/-- One pass of `Clean` over the elements of a path.  `kept` holds the elements
written so far, the last one first.  Empty elements and `.` are dropped; `..`
removes the element before it, is dropped at the root of a rooted path, and is
kept at the start of a path that is not rooted. -/
def cleanElements (rooted : Bool) (kept : List (List Char)) :
    List (List Char) → List (List Char)
  | [] => kept.reverse
  | e :: es =>
    if e = [] ∨ e = ['.'] then cleanElements rooted kept es
    else if e = ['.', '.'] then
      match kept with
      | k :: ks =>
        if k = ['.', '.'] then cleanElements rooted (e :: kept) es
        else cleanElements rooted ks es
      | [] =>
        if rooted then cleanElements rooted [] es
        else cleanElements rooted [e] es
    else cleanElements rooted (e :: kept) es

/-- Clean returns the shortest path name equivalent to `p` (package `path` of
the standard library): multiple slashes become one, `.` elements go, an inner
`..` goes together with the element before it, `..` at the root goes, and the
empty result is written `.`. -/
def Clean (p : String) : String :=
  if p = "" then "."
  else
    let rooted : Bool := p.data.head? = some '/'
    let out := ['/'].intercalate (cleanElements rooted [] (elements p.data))
    if rooted then String.mk ('/' :: out)
    else if out = [] then "."
    else String.mk out

end path

/-- The function `cleanPath` of `net/http`: the canonical path for `p`, without
`.` and `..` elements and without repeated slashes, the trailing slash of `p`
kept. -/
def cleanPath (p : String) : String :=
  if p = "" then "/"
  else
    let p := if p.data.head? ≠ some '/' then "/" ++ p else p
    let np := path.Clean p
    if p.data.getLast? = some '/' ∧ np ≠ "/" then
      if p.data.length = np.data.length + 1 ∧ strings.HasPrefix p np then p
      else np ++ "/"
    else np

namespace http

def StatusOK : Nat := 200

def StatusCreated : Nat := 201

def StatusMovedPermanently : Nat := 301

def StatusBadRequest : Nat := 400

def StatusNotFound : Nat := 404

/-- The part of `*http.Request` the handlers read.  `Path` is `r.URL.Path`, of
a request line that carries no percent-escapes and no query, so that the
escaped path the mux looks at is this same string; it is `*` for the
request-target `*`.  `Body` is the outcome of
`json.NewDecoder(r.Body).Decode(&product)` on a zero `Product`: `none` when
decoding reports an error, otherwise the decoded record (absent fields keep
their zero value). -/
structure Request where
  Method : String
  Path : String
  Body : Option Product
deriving DecidableEq

/-- A value handed to the JSON encoder (or, for `text`, written as is);
`redirectNote url code` is the short HTML note with a link to `url` that
`http.Redirect` writes under status `code`. -/
inductive Payload
  | stringMap (m : List (String × String))
  | product (p : Product)
  | products (ps : List Product)
  | healthMap (status : String) (timestamp : Int)
  | text (s : String)
  | redirectNote (url : String) (code : Nat)
deriving DecidableEq

/-- Response headers, `http.Header`. -/
abbrev Header := AList (fun _ : String => String)

/-- Set sets the header entry for `key` to the single value `value`. -/
def Header.Set (h : Header) (key value : String) : Header :=
  h.insert key value

/-- The observable state of an `http.ResponseWriter`: the header map, the
status code once it has been written, and the body once it has been written.
Every handler of this program writes at most one body. -/
structure ResponseWriter where
  Header : Header
  Status : Option Nat
  Body : Option Payload
deriving DecidableEq

/-- The writer a handler starts with. -/
def ResponseWriter.fresh : ResponseWriter :=
  { Header := ∅, Status := none, Body := none }

/-- The call `w.Header().Set(key, value)`. -/
def ResponseWriter.SetHeader (w : ResponseWriter) (key value : String) :
    ResponseWriter :=
  { w with Header := w.Header.Set key value }

/-- WriteHeader sends the status code; only the first call counts. -/
def ResponseWriter.WriteHeader (w : ResponseWriter) (statusCode : Nat) :
    ResponseWriter :=
  match w.Status with
  | none => { w with Status := some statusCode }
  | some _ => w

/-- Write sends the body, after an implicit `WriteHeader(StatusOK)` when no
status has been written yet. -/
def ResponseWriter.Write (w : ResponseWriter) (data : Payload) : ResponseWriter :=
  { w.WriteHeader StatusOK with Body := some data }

/-- NotFound replies to the request with the mux's own 404 page
(`http.Error(w, "404 page not found", StatusNotFound)`). -/
def NotFound (w : ResponseWriter) : ResponseWriter :=
  let w := w.SetHeader "Content-Type" "text/plain; charset=utf-8"
  let w := w.SetHeader "X-Content-Type-Options" "nosniff"
  let w := w.WriteHeader StatusNotFound
  w.Write (Payload.text "404 page not found\n")

/-- Redirect replies to the request with a redirect to `url`: the `Location`
header (which `net/http` writes percent-escaped), a content type and, for GET
only, the HTML note, unless a content type was set before. -/
def Redirect (w : ResponseWriter) (r : Request) (url : String) (code : Nat) :
    ResponseWriter :=
  let hadCT : Bool := (w.Header.lookup "Content-Type").isSome
  let w := w.SetHeader "Location" url
  let w :=
    if !hadCT ∧ (r.Method = "GET" ∨ r.Method = "HEAD") then
      w.SetHeader "Content-Type" "text/html; charset=utf-8"
    else w
  let w := w.WriteHeader code
  if !hadCT ∧ r.Method = "GET" then w.Write (Payload.redirectNote url code) else w

/-- The handler `globalOptionsHandler` that the server uses for `OPTIONS *`:
an empty response, with the status 200 that the server writes when the handler
wrote none. -/
def globalOptionsHandler (w : ResponseWriter) : ResponseWriter :=
  let w := w.SetHeader "Content-Length" "0"
  w.WriteHeader StatusOK

end http

open http

/-- Server handles HTTP requests. -/
structure Server where
  store : ProductStore
deriving DecidableEq

/-- NewServer creates a new server. -/
def NewServer (u1 u2 u3 u4 u5 : String) : Server :=
  { store := NewProductStore u1 u2 u3 u4 u5 }

/-- A handler bound to the server: it receives the server state, the response
writer and the request, and returns both updated. -/
abbrev HandlerFunc := Server → ResponseWriter → Request → Server × ResponseWriter

/-- JSON response helper. -/
def writeJSON (w : ResponseWriter) (status : Nat) (data : Payload) : ResponseWriter :=
  let w := w.SetHeader "Content-Type" "application/json"
  let w := w.WriteHeader status
  w.Write data

/-- Error response helper. -/
def writeError (w : ResponseWriter) (status : Nat) (message : String) : ResponseWriter :=
  writeJSON w status (Payload.stringMap [("error", message)])

namespace Server

/-- CORS middleware. -/
def enableCORS (next : HandlerFunc) : HandlerFunc := fun s w r =>
  let w := w.SetHeader "Access-Control-Allow-Origin" "*"
  let w := w.SetHeader "Access-Control-Allow-Methods" "GET, POST, PUT, DELETE, OPTIONS"
  let w := w.SetHeader "Access-Control-Allow-Headers" "Content-Type, Authorization"
  if r.Method = "OPTIONS" then
    (s, w.WriteHeader StatusOK)
  else
    next s w r

/-- GET /api/products - Get all products. -/
def handleGetProducts : HandlerFunc := fun s w _ =>
  let products := s.store.GetAll
  (s, writeJSON w StatusOK (Payload.products products))

/-- GET /api/products/:id - Get product by ID. -/
def handleGetProduct : HandlerFunc := fun s w r =>
  let id := strings.TrimPrefix r.Path "/api/products/"
  if id = "" then
    (s, writeError w StatusBadRequest "Product ID is required")
  else
    let res := s.store.GetByID id
    if !res.2 then
      (s, writeError w StatusNotFound "Product not found")
    else
      (s, writeJSON w StatusOK (Payload.product res.1))

/-- POST /api/products - Create new product; `uuid` is the id that the store
draws when `Create` is reached. -/
def handleCreateProduct (uuid : String) : HandlerFunc := fun s w r =>
  match r.Body with
  | none => (s, writeError w StatusBadRequest "Invalid request body")
  | some product =>
    if product.Name = "" ∨ product.Price ≤ 0 ∨ product.Category = "" then
      (s, writeError w StatusBadRequest "Name, price, and category are required")
    else
      let res := s.store.Create product uuid
      ({ store := res.1 }, writeJSON w StatusCreated (Payload.product res.2))

/-- PUT /api/products/:id - Update product. -/
def handleUpdateProduct : HandlerFunc := fun s w r =>
  let id := strings.TrimPrefix r.Path "/api/products/"
  if id = "" then
    (s, writeError w StatusBadRequest "Product ID is required")
  else
    match r.Body with
    | none => (s, writeError w StatusBadRequest "Invalid request body")
    | some product =>
      let res := s.store.Update id product
      if !res.2.2 then
        ({ store := res.1 }, writeError w StatusNotFound "Product not found")
      else
        ({ store := res.1 }, writeJSON w StatusOK (Payload.product res.2.1))

/-- DELETE /api/products/:id - Delete product. -/
def handleDeleteProduct : HandlerFunc := fun s w r =>
  let id := strings.TrimPrefix r.Path "/api/products/"
  if id = "" then
    (s, writeError w StatusBadRequest "Product ID is required")
  else
    let res := s.store.Delete id
    if !res.2 then
      ({ store := res.1 }, writeError w StatusNotFound "Product not found")
    else
      ({ store := res.1 },
        writeJSON w StatusOK (Payload.stringMap [("message", "Product deleted successfully")]))

/-- Router handles request routing. -/
def router (uuid : String) : HandlerFunc := fun s w r =>
  let path := r.Path
  let method := r.Method
  if path = "/api/products" ∧ method = "GET" then
    handleGetProducts s w r
  else if path = "/api/products" ∧ method = "POST" then
    handleCreateProduct uuid s w r
  else if strings.HasPrefix path "/api/products/" ∧ method = "GET" then
    handleGetProduct s w r
  else if strings.HasPrefix path "/api/products/" ∧ method = "PUT" then
    handleUpdateProduct s w r
  else if strings.HasPrefix path "/api/products/" ∧ method = "DELETE" then
    handleDeleteProduct s w r
  else
    (s, writeError w StatusNotFound "Endpoint not found")

/-- Health check endpoint; `now` is `time.Now().Unix()`. -/
def handleHealth (now : Int) : HandlerFunc := fun s w _ =>
  (s, writeJSON w StatusOK (Payload.healthMap "healthy" now))

end Server

/-- The default mux as `main` fills it with its three `http.HandleFunc`
registrations (`ServeMux.ServeHTTP` of `net/http`).  A request for the target
`*` is refused with 400.  A path that is not in canonical form is answered with
a 301 to `cleanPath` of it, and no handler runs; `CONNECT` requests are not
canonicalised.  Otherwise a pattern without a trailing slash matches that path
only, the pattern `/api/products/` matches every path below it, and a path
that matches no pattern is answered by `http.NotFound`. -/
def DefaultServeMux (uuid : String) (now : Int) : HandlerFunc := fun s w r =>
  if r.Path = "*" then
    (s, (w.SetHeader "Connection" "close").WriteHeader StatusBadRequest)
  else if r.Method ≠ "CONNECT" ∧ cleanPath r.Path ≠ r.Path then
    (s, Redirect w r (cleanPath r.Path) StatusMovedPermanently)
  else if r.Path = "/api/health" then
    Server.enableCORS (Server.handleHealth now) s w r
  else if r.Path = "/api/products" then
    Server.enableCORS (Server.router uuid) s w r
  else if strings.HasPrefix r.Path "/api/products/" then
    Server.enableCORS (Server.router uuid) s w r
  else
    (s, NotFound w)

/-- What the server started by `http.ListenAndServe(port, nil)` answers to a
request: `OPTIONS *` goes to `globalOptionsHandler`, everything else to the
default mux, and the body that a handler writes for a `HEAD` request is not
sent. -/
def ServeHTTP (uuid : String) (now : Int) (s : Server) (r : Request) :
    Server × ResponseWriter :=
  let res :=
    if r.Path = "*" ∧ r.Method = "OPTIONS" then
      (s, globalOptionsHandler ResponseWriter.fresh)
    else
      DefaultServeMux uuid now s ResponseWriter.fresh r
  if r.Method = "HEAD" then (res.1, { res.2 with Body := none }) else res

/-- The path of the product resource `id`. -/
def productPath (id : String) : String :=
  "/api/products/" ++ id

/-! ## Sample data -/

/-- A store as `NewProductStore` builds it, for five distinct generated ids. -/
def sampleStore : ProductStore :=
  NewProductStore "id-1" "id-2" "id-3" "id-4" "id-5"

/-- The server on top of `sampleStore`. -/
def sampleServer : Server :=
  { store := sampleStore }

/-- A body that `POST /api/products` accepts; it carries an id and
`inStock = false` of its own. -/
def sampleProduct : Product :=
  { ID := "client-id", Name := "X", Price := 10, Category := "C", InStock := false }

/-- A string of the form `uuid.New().String()` returns. -/
def sampleUUID : String :=
  "0b3c7f52-6a1e-4d3b-9c2a-5e8f1d7a4b60"

/-- Four more strings of that form. -/
def sampleUUID2 : String :=
  "e2a6c8d0-1b3f-4f5a-8d7c-0a9b8c7d6e5f"

def sampleUUID3 : String :=
  "7d1e9a34-2f6b-4c8d-8e5f-3a9b0c1d2e4f"

def sampleUUID4 : String :=
  "c4a8e2b6-9f13-4a7d-b0c5-6e2d8f4a1b93"

def sampleUUID5 : String :=
  "5f9d3b17-8c42-4e6a-a1d7-9b3e5c7f2a08"

/-- A body with an empty name. -/
def namelessProduct : Product :=
  { ID := "", Name := "", Price := 10, Category := "C", InStock := false }

/-! ## Auxiliary facts about the store and the response writer -/

theorem GetByID_of_lookup_some {s : ProductStore} {id : String} {p : Product}
    (h : s.products.lookup id = some p) : s.GetByID id = (p, true) := by
  simp [ProductStore.GetByID, h]

theorem GetByID_of_not_mem {s : ProductStore} {id : String}
    (h : id ∉ s.products) : s.GetByID id = (Product.zero, false) := by
  have h0 : s.products.lookup id = none := AList.lookup_eq_none.mpr h
  simp [ProductStore.GetByID, h0]

theorem Update_of_not_mem {s : ProductStore} {id : String} (p : Product)
    (h : id ∉ s.products) : s.Update id p = (s, (Product.zero, false)) := by
  have h0 : s.products.lookup id = none := AList.lookup_eq_none.mpr h
  simp [ProductStore.Update, h0]

theorem Update_of_mem {s : ProductStore} {id : String} (p : Product)
    (h : id ∈ s.products) :
    s.Update id p =
      ({ products := s.products.insert id { p with ID := id } },
        ({ p with ID := id }, true)) := by
  obtain ⟨q, hq⟩ := Option.isSome_iff_exists.mp (AList.lookup_isSome.mpr h)
  simp [ProductStore.Update, hq]

theorem Delete_of_not_mem {s : ProductStore} {id : String}
    (h : id ∉ s.products) : s.Delete id = (s, false) := by
  have h0 : s.products.lookup id = none := AList.lookup_eq_none.mpr h
  simp [ProductStore.Delete, h0]

theorem Delete_of_mem {s : ProductStore} {id : String}
    (h : id ∈ s.products) :
    s.Delete id = ({ products := s.products.erase id }, true) := by
  obtain ⟨q, hq⟩ := Option.isSome_iff_exists.mp (AList.lookup_isSome.mpr h)
  simp [ProductStore.Delete, hq]

theorem TrimPrefix_productPath (id : String) :
    strings.TrimPrefix (productPath id) "/api/products/" = id := by
  have h : (productPath id).data = "/api/products/".data ++ id.data := by
    simp [productPath]
  have hp : strings.HasPrefix (productPath id) "/api/products/" = true := by
    simp only [strings.HasPrefix, h, List.isPrefixOf_iff_prefix]
    exact List.prefix_append _ _
  simp only [strings.TrimPrefix, hp, if_true, h, List.drop_left]

theorem HasPrefix_productPath (id : String) :
    strings.HasPrefix (productPath id) "/api/products/" = true := by
  have h : (productPath id).data = "/api/products/".data ++ id.data := by
    simp [productPath]
  simp only [strings.HasPrefix, h, List.isPrefixOf_iff_prefix]
  exact List.prefix_append _ _

theorem registered_ne_star {r : Request}
    (hpath : r.Path = "/api/health" ∨ r.Path = "/api/products" ∨
      strings.HasPrefix r.Path "/api/products/" = true) : r.Path ≠ "*" := by
  intro h
  rw [h] at hpath
  revert hpath
  decide

theorem products_ne_health {r : Request}
    (hpath : r.Path = "/api/products" ∨ strings.HasPrefix r.Path "/api/products/" = true) :
    r.Path ≠ "/api/health" := by
  intro h
  rw [h] at hpath
  revert hpath
  decide

theorem DefaultServeMux_products (uuid : String) (now : Int) (s : Server)
    (w : ResponseWriter) (r : Request)
    (hpath : r.Path = "/api/products" ∨ strings.HasPrefix r.Path "/api/products/" = true)
    (hclean : cleanPath r.Path = r.Path) :
    DefaultServeMux uuid now s w r = Server.enableCORS (Server.router uuid) s w r := by
  have hstar : r.Path ≠ "*" := registered_ne_star (Or.inr hpath)
  have hhealth : r.Path ≠ "/api/health" := products_ne_health hpath
  have hred : ¬ (r.Method ≠ "CONNECT" ∧ cleanPath r.Path ≠ r.Path) :=
    fun h => h.2 hclean
  simp only [DefaultServeMux, if_neg hstar, if_neg hred, if_neg hhealth]
  rcases hpath with hp | hp
  · rw [if_pos hp]
  · rw [if_pos hp]
    split_ifs <;> rfl

theorem DefaultServeMux_registered (uuid : String) (now : Int) (s : Server)
    (w : ResponseWriter) (r : Request)
    (hpath : r.Path = "/api/health" ∨ r.Path = "/api/products" ∨
      strings.HasPrefix r.Path "/api/products/" = true)
    (hclean : cleanPath r.Path = r.Path) :
    DefaultServeMux uuid now s w r =
        Server.enableCORS (Server.handleHealth now) s w r ∨
      DefaultServeMux uuid now s w r =
        Server.enableCORS (Server.router uuid) s w r := by
  rcases hpath with hp | hp
  · left
    have hstar : r.Path ≠ "*" := registered_ne_star (Or.inl hp)
    have hred : ¬ (r.Method ≠ "CONNECT" ∧ cleanPath r.Path ≠ r.Path) :=
      fun h => h.2 hclean
    simp only [DefaultServeMux, if_neg hstar, if_neg hred, if_pos hp]
  · right
    exact DefaultServeMux_products uuid now s w r hp hclean

theorem ServeHTTP_of_ne_star (uuid : String) (now : Int) (s : Server) (r : Request)
    (hstar : r.Path ≠ "*") :
    ServeHTTP uuid now s r =
      if r.Method = "HEAD" then
        ((DefaultServeMux uuid now s ResponseWriter.fresh r).1,
          { (DefaultServeMux uuid now s ResponseWriter.fresh r).2 with Body := none })
      else DefaultServeMux uuid now s ResponseWriter.fresh r := by
  have h : ¬ (r.Path = "*" ∧ r.Method = "OPTIONS") := fun h => hstar h.1
  simp only [ServeHTTP, if_neg h]

theorem ServeHTTP_products_eq (uuid : String) (now : Int) (s : Server) (r : Request)
    (hpath : r.Path = "/api/products" ∨ strings.HasPrefix r.Path "/api/products/" = true)
    (hclean : cleanPath r.Path = r.Path) (hhead : r.Method ≠ "HEAD") :
    ServeHTTP uuid now s r =
      Server.enableCORS (Server.router uuid) s ResponseWriter.fresh r := by
  rw [ServeHTTP_of_ne_star uuid now s r (registered_ne_star (Or.inr hpath)), if_neg hhead,
    DefaultServeMux_products uuid now s _ r hpath hclean]

theorem ServeHTTP_registered_eq (uuid : String) (now : Int) (s : Server) (r : Request)
    (hpath : r.Path = "/api/health" ∨ r.Path = "/api/products" ∨
      strings.HasPrefix r.Path "/api/products/" = true)
    (hclean : cleanPath r.Path = r.Path) (hhead : r.Method ≠ "HEAD") :
    ServeHTTP uuid now s r =
        Server.enableCORS (Server.handleHealth now) s ResponseWriter.fresh r ∨
      ServeHTTP uuid now s r =
        Server.enableCORS (Server.router uuid) s ResponseWriter.fresh r := by
  rw [ServeHTTP_of_ne_star uuid now s r (registered_ne_star hpath), if_neg hhead]
  exact DefaultServeMux_registered uuid now s _ r hpath hclean

theorem ServeHTTP_registered_Header (uuid : String) (now : Int) (s : Server) (r : Request)
    (hpath : r.Path = "/api/health" ∨ r.Path = "/api/products" ∨
      strings.HasPrefix r.Path "/api/products/" = true)
    (hclean : cleanPath r.Path = r.Path) :
    (ServeHTTP uuid now s r).2.Header =
        (Server.enableCORS (Server.handleHealth now) s ResponseWriter.fresh r).2.Header ∨
      (ServeHTTP uuid now s r).2.Header =
        (Server.enableCORS (Server.router uuid) s ResponseWriter.fresh r).2.Header := by
  rw [ServeHTTP_of_ne_star uuid now s r (registered_ne_star hpath)]
  rcases DefaultServeMux_registered uuid now s ResponseWriter.fresh r hpath hclean with h | h
  · left
    rw [h]
    split_ifs <;> rfl
  · right
    rw [h]
    split_ifs <;> rfl

theorem len_eq_keys_length (s : ProductStore) : s.len = s.products.keys.length := by
  simp [ProductStore.len, AList.keys, List.keys]

theorem len_erase_of_mem {s : ProductStore} {id : String} (h : id ∈ s.products) :
    ProductStore.len { products := s.products.erase id } + 1 = s.len := by
  have hk : id ∈ s.products.keys := AList.mem_keys.mp h
  have hpos : 0 < s.products.keys.length := List.length_pos_of_mem hk
  rw [len_eq_keys_length, len_eq_keys_length, AList.keys_erase,
    List.length_erase_of_mem hk]
  omega

theorem GetByID_erase_ne (s : ProductStore) {id j : String} (h : j ≠ id) :
    ProductStore.GetByID { products := s.products.erase id } j = s.GetByID j := by
  simp [ProductStore.GetByID, AList.lookup_erase_ne h]

theorem handleGetProduct_of_not_mem {s : Server} {w : ResponseWriter} {r : Request}
    {id : String} (hp : r.Path = productPath id) (hne : id ≠ "")
    (h : id ∉ s.store.products) :
    Server.handleGetProduct s w r =
      (s, writeError w StatusNotFound "Product not found") := by
  simp [Server.handleGetProduct, hp, TrimPrefix_productPath, hne, GetByID_of_not_mem h]

theorem handleDeleteProduct_of_not_mem {s : Server} {w : ResponseWriter} {r : Request}
    {id : String} (hp : r.Path = productPath id) (hne : id ≠ "")
    (h : id ∉ s.store.products) :
    Server.handleDeleteProduct s w r =
      (s, writeError w StatusNotFound "Product not found") := by
  simp [Server.handleDeleteProduct, hp, TrimPrefix_productPath, hne, Delete_of_not_mem h]

theorem handleDeleteProduct_of_mem {s : Server} {w : ResponseWriter} {r : Request}
    {id : String} (hp : r.Path = productPath id) (hne : id ≠ "")
    (h : id ∈ s.store.products) :
    Server.handleDeleteProduct s w r =
      ({ store := { products := s.store.products.erase id } },
        writeJSON w StatusOK
          (Payload.stringMap [("message", "Product deleted successfully")])) := by
  simp [Server.handleDeleteProduct, hp, TrimPrefix_productPath, hne, Delete_of_mem h]

theorem writeJSON_Status {w : ResponseWriter} (hw : w.Status = none) (status : Nat)
    (data : Payload) : (writeJSON w status data).Status = some status := by
  simp [writeJSON, ResponseWriter.Write, ResponseWriter.WriteHeader,
    ResponseWriter.SetHeader, hw]

theorem writeJSON_Body (w : ResponseWriter) (status : Nat) (data : Payload) :
    (writeJSON w status data).Body = some data := by
  simp [writeJSON, ResponseWriter.Write]

theorem writeError_Status {w : ResponseWriter} (hw : w.Status = none) (status : Nat)
    (message : String) : (writeError w status message).Status = some status :=
  writeJSON_Status hw status _

theorem writeError_Body (w : ResponseWriter) (status : Nat) (message : String) :
    (writeError w status message).Body =
      some (Payload.stringMap [("error", message)]) :=
  writeJSON_Body w status _

theorem GetByID_Create (s : ProductStore) (p : Product) (g : String) :
    (s.Create p g).1.GetByID g = ((s.Create p g).2, true) := by
  apply GetByID_of_lookup_some
  simp [ProductStore.Create]

/-! ## Store contract -/

/-- C1: `Create` returns a record whose id is the generated id, whose `InStock`
is `true` and whose name, price and category are the input's, whatever id and
`InStock` value the input carries; a `GetByID` on the generated id right
afterwards returns that record with `found = true`. -/
theorem Create_returns_stored_record (s : ProductStore) (p : Product) (g : String) :
    (s.Create p g).2.ID = g ∧ (s.Create p g).2.InStock = true ∧
      (s.Create p g).2.Name = p.Name ∧ (s.Create p g).2.Price = p.Price ∧
      (s.Create p g).2.Category = p.Category ∧
      (s.Create p g).1.GetByID g = ((s.Create p g).2, true) := by
  exact ⟨rfl, rfl, rfl, rfl, rfl, GetByID_Create s p g⟩

/-! ## Create endpoint -/

/-- C2: for a decoded body whose name is empty, or whose price is not strictly
greater than zero, or whose category is empty, `handleCreateProduct` answers
400 with the body `{"error":"Name, price, and category are required"}` and
leaves the store as it was: same records, same size. -/
theorem handleCreateProduct_rejects_invalid (uuid : String) (s : Server)
    (w : ResponseWriter) (r : Request) (p : Product)
    (hw : w.Status = none) (hb : r.Body = some p)
    (hbad : p.Name = "" ∨ ¬ (0 < p.Price) ∨ p.Category = "") :
    (Server.handleCreateProduct uuid s w r).2.Status = some 400 ∧
      (Server.handleCreateProduct uuid s w r).2.Body =
        some (Payload.stringMap [("error", "Name, price, and category are required")]) ∧
      (Server.handleCreateProduct uuid s w r).1 = s ∧
      (Server.handleCreateProduct uuid s w r).1.store.GetAll = s.store.GetAll ∧
      (Server.handleCreateProduct uuid s w r).1.store.len = s.store.len := by
  have hbad2 : p.Name = "" ∨ p.Price ≤ 0 ∨ p.Category = "" := by
    rcases hbad with h | h | h
    · exact Or.inl h
    · exact Or.inr (Or.inl (not_lt.mp h))
    · exact Or.inr (Or.inr h)
  have hres : Server.handleCreateProduct uuid s w r =
      (s, writeError w StatusBadRequest "Name, price, and category are required") := by
    simp only [Server.handleCreateProduct, hb, if_pos hbad2]
  rw [hres]
  exact ⟨writeError_Status hw _ _, writeError_Body _ _ _, rfl, rfl, rfl⟩

theorem handleCreateProduct_rejects_invalid_witness :
    ResponseWriter.fresh.Status = none ∧
      (Request.mk "POST" "/api/products" (some namelessProduct)).Body
        = some namelessProduct ∧
      (namelessProduct.Name = "" ∨ ¬ (0 < namelessProduct.Price) ∨
        namelessProduct.Category = "") ∧
      ((Server.handleCreateProduct "id-6" sampleServer ResponseWriter.fresh
          (Request.mk "POST" "/api/products" (some namelessProduct))).2.Status = some 400 ∧
        (Server.handleCreateProduct "id-6" sampleServer ResponseWriter.fresh
          (Request.mk "POST" "/api/products" (some namelessProduct))).2.Body =
          some (Payload.stringMap [("error", "Name, price, and category are required")]) ∧
        (Server.handleCreateProduct "id-6" sampleServer ResponseWriter.fresh
          (Request.mk "POST" "/api/products" (some namelessProduct))).1 = sampleServer ∧
        (Server.handleCreateProduct "id-6" sampleServer ResponseWriter.fresh
          (Request.mk "POST" "/api/products" (some namelessProduct))).1.store.GetAll
          = sampleServer.store.GetAll ∧
        (Server.handleCreateProduct "id-6" sampleServer ResponseWriter.fresh
          (Request.mk "POST" "/api/products" (some namelessProduct))).1.store.len
          = sampleServer.store.len) :=
  ⟨rfl, rfl, Or.inl rfl,
    handleCreateProduct_rejects_invalid "id-6" sampleServer ResponseWriter.fresh
      (Request.mk "POST" "/api/products" (some namelessProduct)) namelessProduct
      rfl rfl (Or.inl rfl)⟩

/-- C3: for a decoded body with non-empty name, price strictly greater than
zero and non-empty category, `POST /api/products` answers 201 with the record
that the store now holds under the generated id (that id, the body's name,
price and category, `inStock = true`); and a decodable body is answered 201
exactly when the three validation rules hold. -/
theorem router_POST_products_creates (uuid : String) (s : Server)
    (w : ResponseWriter) (r : Request) (p : Product)
    (hw : w.Status = none) (hm : r.Method = "POST") (hp : r.Path = "/api/products")
    (hb : r.Body = some p) :
    ((Server.router uuid s w r).2.Status = some 201 ↔
        (p.Name ≠ "" ∧ 0 < p.Price ∧ p.Category ≠ "")) ∧
      ((p.Name ≠ "" ∧ 0 < p.Price ∧ p.Category ≠ "") →
        (Server.router uuid s w r).2.Status = some 201 ∧
        (Server.router uuid s w r).2.Body =
          some (Payload.product
            { ID := uuid, Name := p.Name, Price := p.Price, Category := p.Category,
              InStock := true }) ∧
        (Server.router uuid s w r).1.store.GetByID uuid =
          ({ ID := uuid, Name := p.Name, Price := p.Price, Category := p.Category,
             InStock := true }, true)) := by
  have hroute : Server.router uuid s w r = Server.handleCreateProduct uuid s w r := by
    simp [Server.router, hm, hp]
  rw [hroute]
  by_cases hv : p.Name = "" ∨ p.Price ≤ 0 ∨ p.Category = ""
  · have hres : Server.handleCreateProduct uuid s w r =
        (s, writeError w StatusBadRequest "Name, price, and category are required") := by
      simp only [Server.handleCreateProduct, hb, if_pos hv]
    have hnot : ¬ (p.Name ≠ "" ∧ 0 < p.Price ∧ p.Category ≠ "") := by
      rintro ⟨h1, h2, h3⟩
      rcases hv with h | h | h
      · exact h1 h
      · exact absurd h2 (not_lt.mpr h)
      · exact h3 h
    rw [hres]
    refine ⟨⟨fun h => ?_, fun h => absurd h hnot⟩, fun h => absurd h hnot⟩
    rw [writeError_Status hw] at h
    simp [StatusBadRequest] at h
  · have hres : Server.handleCreateProduct uuid s w r =
        ({ store := (s.store.Create p uuid).1 },
          writeJSON w StatusCreated (Payload.product (s.store.Create p uuid).2)) := by
      simp only [Server.handleCreateProduct, hb, if_neg hv]
    have hval : p.Name ≠ "" ∧ 0 < p.Price ∧ p.Category ≠ "" := by
      refine ⟨fun h => hv (Or.inl h), ?_, fun h => hv (Or.inr (Or.inr h))⟩
      exact not_le.mp (fun h => hv (Or.inr (Or.inl h)))
    have hfull : (writeJSON w StatusCreated
          (Payload.product (s.store.Create p uuid).2)).Status = some 201 :=
      writeJSON_Status hw _ _
    rw [hres]
    refine ⟨⟨fun _ => hval, fun _ => hfull⟩, fun _ => ⟨hfull, ?_, ?_⟩⟩
    · rw [writeJSON_Body]
      rfl
    · exact GetByID_Create s.store p uuid

theorem router_POST_products_creates_witness :
    ResponseWriter.fresh.Status = none ∧
      ((Server.router "id-6" sampleServer ResponseWriter.fresh
          (Request.mk "POST" "/api/products" (some sampleProduct))).2.Status = some 201 ∧
        (Server.router "id-6" sampleServer ResponseWriter.fresh
          (Request.mk "POST" "/api/products" (some sampleProduct))).2.Body =
          some (Payload.product
            { ID := "id-6", Name := "X", Price := 10, Category := "C", InStock := true }) ∧
        (Server.router "id-6" sampleServer ResponseWriter.fresh
          (Request.mk "POST" "/api/products" (some sampleProduct))).1.store.GetByID "id-6" =
          ({ ID := "id-6", Name := "X", Price := 10, Category := "C", InStock := true },
            true)) :=
  ⟨rfl,
    (router_POST_products_creates "id-6" sampleServer ResponseWriter.fresh
      (Request.mk "POST" "/api/products" (some sampleProduct)) sampleProduct
      rfl rfl rfl rfl).2 (by decide)⟩

/-! ## Update and delete -/

/-- C4: for an id that is not a key of the store, `Update` returns
`found = false` and the store is unchanged: no record appears under the id and
every lookup gives what it gave before; the PUT handler, asked for that id
with a decodable body, answers 404 with `{"error":"Product not found"}` and
leaves the store as it was. -/
theorem Update_unknown_id (s : ProductStore) (id : String) (p : Product)
    (h : id ∉ s.products) :
    (s.Update id p).2.2 = false ∧ (s.Update id p).1 = s ∧
      ((s.Update id p).1.GetByID id).2 = false ∧
      (∀ j, (s.Update id p).1.GetByID j = s.GetByID j) ∧
      (∀ (w : ResponseWriter) (r : Request), w.Status = none → id ≠ "" →
        r.Path = productPath id → r.Body = some p →
        (Server.handleUpdateProduct { store := s } w r).2.Status = some 404 ∧
        (Server.handleUpdateProduct { store := s } w r).2.Body =
          some (Payload.stringMap [("error", "Product not found")]) ∧
        (Server.handleUpdateProduct { store := s } w r).1 = { store := s }) := by
  have hu := Update_of_not_mem p h
  refine ⟨by rw [hu], by rw [hu], ?_, fun j => by rw [hu], ?_⟩
  · rw [hu]
    simp [GetByID_of_not_mem h]
  · intro w r hw hne hp hb
    have hres : Server.handleUpdateProduct { store := s } w r =
        ({ store := s }, writeError w StatusNotFound "Product not found") := by
      simp [Server.handleUpdateProduct, hp, TrimPrefix_productPath, hne, hb, hu]
    rw [hres]
    exact ⟨writeError_Status hw _ _, writeError_Body _ _ _, rfl⟩

theorem Update_unknown_id_witness :
    "id-9" ∉ sampleStore.products ∧
      (sampleStore.Update "id-9" sampleProduct).2.2 = false ∧
      (sampleStore.Update "id-9" sampleProduct).1 = sampleStore ∧
      (Server.handleUpdateProduct { store := sampleStore } ResponseWriter.fresh
        (Request.mk "PUT" (productPath "id-9") (some sampleProduct))).2.Status
        = some 404 :=
  ⟨by decide,
    (Update_unknown_id sampleStore "id-9" sampleProduct (by decide)).1,
    (Update_unknown_id sampleStore "id-9" sampleProduct (by decide)).2.1,
    ((Update_unknown_id sampleStore "id-9" sampleProduct (by decide)).2.2.2.2
      ResponseWriter.fresh (Request.mk "PUT" (productPath "id-9") (some sampleProduct))
      rfl (by decide) rfl rfl).1⟩

/-- C5: for an id that is a key of the store, `Update` returns the record made
of that id and of the input's name, price, category and `InStock`, with
`found = true`, whatever id the input carries; a `GetByID` on the id afterwards
returns exactly that record.  Nothing of the old record enters the result. -/
theorem Update_existing_id (s : ProductStore) (id : String) (p : Product)
    (h : id ∈ s.products) :
    (s.Update id p).2 =
        ({ ID := id, Name := p.Name, Price := p.Price, Category := p.Category,
           InStock := p.InStock }, true) ∧
      (s.Update id p).1.GetByID id =
        ({ ID := id, Name := p.Name, Price := p.Price, Category := p.Category,
           InStock := p.InStock }, true) := by
  rw [Update_of_mem p h]
  refine ⟨rfl, ?_⟩
  apply GetByID_of_lookup_some
  simp

theorem Update_existing_id_witness :
    "id-3" ∈ sampleStore.products ∧
      (sampleStore.Update "id-3" sampleProduct).2 =
        ({ ID := "id-3", Name := "X", Price := 10, Category := "C",
           InStock := false }, true) ∧
      (sampleStore.Update "id-3" sampleProduct).1.GetByID "id-3" =
        ({ ID := "id-3", Name := "X", Price := 10, Category := "C",
           InStock := false }, true) :=
  ⟨by decide, Update_existing_id sampleStore "id-3" sampleProduct (by decide)⟩

/-- C6: for an id that is a key of the store, `Delete` returns `true`, a
`GetByID` on the id afterwards reports not found, the number of records drops
by exactly one, and every record under another id is returned as before; the
DELETE handler leaves the server with that store, on which
`GET /api/products/{id}` answers 404 with `{"error":"Product not found"}`. -/
theorem Delete_existing_id (s : ProductStore) (id : String) (h : id ∈ s.products) :
    (s.Delete id).2 = true ∧ ((s.Delete id).1.GetByID id).2 = false ∧
      (s.Delete id).1.len + 1 = s.len ∧
      (∀ j, j ≠ id → (s.Delete id).1.GetByID j = s.GetByID j) ∧
      (∀ (w : ResponseWriter) (r : Request), w.Status = none → id ≠ "" →
        r.Path = productPath id →
        (Server.handleDeleteProduct { store := s } w r).1 = { store := (s.Delete id).1 } ∧
        (Server.handleGetProduct (Server.handleDeleteProduct { store := s } w r).1
          w r).2.Status = some 404 ∧
        (Server.handleGetProduct (Server.handleDeleteProduct { store := s } w r).1
          w r).2.Body = some (Payload.stringMap [("error", "Product not found")])) := by
  have hd := Delete_of_mem h
  have hgone : id ∉ s.products.erase id := by simp [AList.mem_erase]
  have hgone1 : id ∉ (ProductStore.mk (s.products.erase id)).products := hgone
  refine ⟨by rw [hd], ?_, ?_, ?_, ?_⟩
  · rw [hd, GetByID_of_not_mem hgone1]
  · rw [hd]
    exact len_erase_of_mem h
  · intro j hj
    rw [hd]
    exact GetByID_erase_ne s hj
  · intro w r hw hne hp
    have hmem : id ∈ (Server.mk s).store.products := h
    rw [handleDeleteProduct_of_mem hp hne hmem, hd]
    have hgone2 :
        id ∉ (Server.mk { products := s.products.erase id }).store.products := hgone
    rw [handleGetProduct_of_not_mem hp hne hgone2]
    exact ⟨rfl, writeError_Status hw _ _, writeError_Body _ _ _⟩

theorem Delete_existing_id_witness :
    "id-3" ∈ sampleStore.products ∧
      (sampleStore.Delete "id-3").2 = true ∧
      ((sampleStore.Delete "id-3").1.GetByID "id-3").2 = false ∧
      (sampleStore.Delete "id-3").1.len + 1 = sampleStore.len ∧
      (Server.handleGetProduct
        (Server.handleDeleteProduct { store := sampleStore } ResponseWriter.fresh
          (Request.mk "DELETE" (productPath "id-3") none)).1
        ResponseWriter.fresh (Request.mk "DELETE" (productPath "id-3") none)).2.Status
        = some 404 :=
  ⟨by decide,
    (Delete_existing_id sampleStore "id-3" (by decide)).1,
    (Delete_existing_id sampleStore "id-3" (by decide)).2.1,
    (Delete_existing_id sampleStore "id-3" (by decide)).2.2.1,
    ((Delete_existing_id sampleStore "id-3" (by decide)).2.2.2.2
      ResponseWriter.fresh (Request.mk "DELETE" (productPath "id-3") none)
      rfl (by decide) rfl).2.1⟩

/-- C7: deleting a key of the store twice in a row succeeds first (`Delete`
returns `true`, the handler answers 200 with
`{"message":"Product deleted successfully"}`) and reports not found second
(`Delete` returns `false`, the handler answers 404), the second delete leaving
the store as the first one left it.  In general `Delete` of an absent id
returns `false` and does not change the store, and a repeated `Delete` gives
the same store as a single one. -/
theorem Delete_twice (s : ProductStore) (id : String) (h : id ∈ s.products) :
    (s.Delete id).2 = true ∧ ((s.Delete id).1.Delete id).2 = false ∧
      ((s.Delete id).1.Delete id).1 = (s.Delete id).1 ∧
      (∀ (w : ResponseWriter) (r : Request), w.Status = none → id ≠ "" →
        r.Path = productPath id →
        (Server.handleDeleteProduct { store := s } w r).2.Status = some 200 ∧
        (Server.handleDeleteProduct { store := s } w r).2.Body =
          some (Payload.stringMap [("message", "Product deleted successfully")]) ∧
        (Server.handleDeleteProduct
          (Server.handleDeleteProduct { store := s } w r).1 w r).2.Status = some 404 ∧
        (Server.handleDeleteProduct
          (Server.handleDeleteProduct { store := s } w r).1 w r).2.Body =
          some (Payload.stringMap [("error", "Product not found")]) ∧
        (Server.handleDeleteProduct
          (Server.handleDeleteProduct { store := s } w r).1 w r).1 =
          (Server.handleDeleteProduct { store := s } w r).1) ∧
      (∀ (t : ProductStore) (j : String), j ∉ t.products →
        (t.Delete j).2 = false ∧ (t.Delete j).1 = t) ∧
      (∀ (t : ProductStore) (j : String),
        ((t.Delete j).1.Delete j).1 = (t.Delete j).1) := by
  have hd := Delete_of_mem h
  have hgone : id ∉ s.products.erase id := by simp [AList.mem_erase]
  have hgone1 : id ∉ (ProductStore.mk (s.products.erase id)).products := hgone
  refine ⟨by rw [hd], ?_, ?_, ?_, ?_, ?_⟩
  · rw [hd, Delete_of_not_mem hgone1]
  · rw [hd, Delete_of_not_mem hgone1]
  · intro w r hw hne hp
    have hmem : id ∈ (Server.mk s).store.products := h
    have hgone2 :
        id ∉ (Server.mk { products := s.products.erase id }).store.products := hgone
    rw [handleDeleteProduct_of_mem hp hne hmem, handleDeleteProduct_of_not_mem hp hne hgone2]
    exact ⟨writeJSON_Status hw _ _, writeJSON_Body _ _ _, writeError_Status hw _ _,
      writeError_Body _ _ _, rfl⟩
  · intro t j hj
    rw [Delete_of_not_mem hj]
    exact ⟨rfl, rfl⟩
  · intro t j
    by_cases hj : j ∈ t.products
    · have hg : j ∉ (ProductStore.mk (t.products.erase j)).products := by
        simp [AList.mem_erase]
      rw [Delete_of_mem hj, Delete_of_not_mem hg]
    · rw [Delete_of_not_mem hj, Delete_of_not_mem hj]

theorem Delete_twice_witness :
    "id-3" ∈ sampleStore.products ∧
      (sampleStore.Delete "id-3").2 = true ∧
      ((sampleStore.Delete "id-3").1.Delete "id-3").2 = false ∧
      ((sampleStore.Delete "id-3").1.Delete "id-3").1 = (sampleStore.Delete "id-3").1 ∧
      (Server.handleDeleteProduct { store := sampleStore } ResponseWriter.fresh
        (Request.mk "DELETE" (productPath "id-3") none)).2.Status = some 200 ∧
      (Server.handleDeleteProduct
        (Server.handleDeleteProduct { store := sampleStore } ResponseWriter.fresh
          (Request.mk "DELETE" (productPath "id-3") none)).1
        ResponseWriter.fresh (Request.mk "DELETE" (productPath "id-3") none)).2.Status
        = some 404 :=
  ⟨by decide,
    (Delete_twice sampleStore "id-3" (by decide)).1,
    (Delete_twice sampleStore "id-3" (by decide)).2.1,
    (Delete_twice sampleStore "id-3" (by decide)).2.2.1,
    ((Delete_twice sampleStore "id-3" (by decide)).2.2.2.1
      ResponseWriter.fresh (Request.mk "DELETE" (productPath "id-3") none)
      rfl (by decide) rfl).1,
    ((Delete_twice sampleStore "id-3" (by decide)).2.2.2.1
      ResponseWriter.fresh (Request.mk "DELETE" (productPath "id-3") none)
      rfl (by decide) rfl).2.2.1⟩

/-! ## Identifiers -/

theorem NewProductStore_GetAll_eq (u1 u2 u3 u4 u5 : String)
    (hnd : [u1, u2, u3, u4, u5].Nodup) :
    (NewProductStore u1 u2 u3 u4 u5).GetAll = (mockProducts u1 u2 u3 u4 u5).reverse := by
  simp only [List.nodup_cons, List.mem_cons, List.mem_singleton, not_or, List.not_mem_nil,
    not_false_eq_true, List.nodup_nil, and_true] at hnd
  obtain ⟨⟨h12, h13, h14, h15⟩, ⟨h23, h24, h25⟩, ⟨h34, h35⟩, h45⟩ := hnd
  have e1 : ∀ (a : String) (b : Product) (t : AList (fun _ : String => Product)),
      a ∉ t → (t.insert a b).entries = ⟨a, b⟩ :: t.entries :=
    fun a b t h => AList.insert_entries_of_neg h
  simp only [NewProductStore, mockProducts, List.foldl, ProductStore.GetAll]
  rw [e1, e1, e1, e1, e1]
  · simp
  all_goals simp [AList.mem_insert, AList.not_mem_empty, -AList.insert_empty, *, Ne.symm]

theorem filed_insert {t : AList (fun _ : String => Product)} {k : String} {v : Product}
    (hv : v.ID = k) (ht : ∀ j p, t.lookup j = some p → p.ID = j) :
    ∀ j p, (t.insert k v).lookup j = some p → p.ID = j := by
  intro j p hj
  by_cases hjk : j = k
  · subst hjk
    rw [AList.lookup_insert] at hj
    cases hj
    exact hv
  · rw [AList.lookup_insert_ne hjk] at hj
    exact ht j p hj

theorem filed_erase {t : AList (fun _ : String => Product)} (k : String)
    (ht : ∀ j p, t.lookup j = some p → p.ID = j) :
    ∀ j p, (t.erase k).lookup j = some p → p.ID = j := by
  intro j p hj
  by_cases hjk : j = k
  · subst hjk
    rw [AList.lookup_erase] at hj
    cases hj
  · rw [AList.lookup_erase_ne hjk] at hj
    exact ht j p hj

theorem filed_NewProductStore (u1 u2 u3 u4 u5 : String) :
    ∀ j p, (NewProductStore u1 u2 u3 u4 u5).products.lookup j = some p → p.ID = j := by
  simp only [NewProductStore, mockProducts, List.foldl]
  refine filed_insert rfl (filed_insert rfl (filed_insert rfl (filed_insert rfl
    (filed_insert rfl ?_))))
  intro j p hj
  rw [AList.lookup_empty] at hj
  cases hj

theorem filed_of_Reachable {s : ProductStore} (h : Reachable s) :
    ∀ j p, s.products.lookup j = some p → p.ID = j := by
  induction h with
  | init u1 u2 u3 u4 u5 => exact filed_NewProductStore u1 u2 u3 u4 u5
  | create s product uuid _ ih => exact filed_insert rfl ih
  | update s id product _ ih =>
    by_cases hmem : id ∈ s.products
    · rw [Update_of_mem product hmem]
      exact filed_insert rfl ih
    · rw [Update_of_not_mem product hmem]
      exact ih
  | delete s id _ ih =>
    by_cases hmem : id ∈ s.products
    · rw [Delete_of_mem hmem]
      exact filed_erase id ih
    · rw [Delete_of_not_mem hmem]
      exact ih

theorem GetAll_ids_eq_keys {s : ProductStore}
    (h : ∀ j p, s.products.lookup j = some p → p.ID = j) :
    s.GetAll.map Product.ID = s.products.keys := by
  simp only [ProductStore.GetAll, AList.keys, List.keys, List.map_map]
  apply List.map_congr_left
  intro e he
  have hl : s.products.lookup e.1 = some e.2 := by
    have : e.2 ∈ s.products.lookup e.1 := AList.mem_lookup_iff.mpr he
    exact this
  exact h e.1 e.2 hl

theorem NewProductStore_mem_keys (u1 u2 u3 u4 u5 k : String) :
    k ∈ (NewProductStore u1 u2 u3 u4 u5).products.keys ↔ k ∈ [u1, u2, u3, u4, u5] := by
  rw [← AList.mem_keys]
  simp only [NewProductStore, mockProducts, List.foldl, AList.mem_insert, List.mem_cons,
    List.mem_singleton, List.not_mem_nil, or_false]
  have hempty : k ∉ (∅ : AList (fun _ : String => Product)) := AList.not_mem_empty k
  constructor
  · rintro (h | h | h | h | h | h)
    · exact Or.inr (Or.inr (Or.inr (Or.inr h)))
    · exact Or.inr (Or.inr (Or.inr (Or.inl h)))
    · exact Or.inr (Or.inr (Or.inl h))
    · exact Or.inr (Or.inl h)
    · exact Or.inl h
    · exact absurd h hempty
  · rintro (h | h | h | h | h)
    · exact Or.inr (Or.inr (Or.inr (Or.inr (Or.inl h))))
    · exact Or.inr (Or.inr (Or.inr (Or.inl h)))
    · exact Or.inr (Or.inr (Or.inl h))
    · exact Or.inr (Or.inl h)
    · exact Or.inl h

/-- C8, as stated, fails when two of the five `uuid.New().String()` calls
return the same string: the second seed record then replaces the first under
that id and `GetAll` returns 4 products, not 5.  `NewProductStore` has no
check against it. -/
theorem NewProductStore_repeated_uuid :
    (NewProductStore sampleUUID sampleUUID sampleUUID3 sampleUUID4
        sampleUUID5).GetAll.length = 4 ∧
      ((NewProductStore sampleUUID sampleUUID sampleUUID3 sampleUUID4
        sampleUUID5).GetByID sampleUUID).1.Name = "Mechanical Keyboard" := by
  decide

/-- C8, amended: right after `NewProductStore`, `GetAll` returns one product
for each distinct id among the five that `uuid.New().String()` returned: at
most 5 products, no two of them with the same id, each with one of the
generated ids (a non-empty id when the generated strings are non-empty) and
each generated id on one of them.  When the five generated ids are pairwise
distinct, which the code does not check, these are exactly the 5 seed
products. -/
theorem NewProductStore_GetAll (u1 u2 u3 u4 u5 : String) :
    (NewProductStore u1 u2 u3 u4 u5).GetAll.length ≤ 5 ∧
      ((NewProductStore u1 u2 u3 u4 u5).GetAll.map Product.ID).Nodup ∧
      (∀ p ∈ (NewProductStore u1 u2 u3 u4 u5).GetAll, p.ID ∈ [u1, u2, u3, u4, u5]) ∧
      (∀ u ∈ [u1, u2, u3, u4, u5],
        ∃ p ∈ (NewProductStore u1 u2 u3 u4 u5).GetAll, p.ID = u) ∧
      ((∀ u ∈ [u1, u2, u3, u4, u5], u ≠ "") →
        ∀ p ∈ (NewProductStore u1 u2 u3 u4 u5).GetAll, p.ID ≠ "") ∧
      ([u1, u2, u3, u4, u5].Nodup →
        (NewProductStore u1 u2 u3 u4 u5).GetAll.length = 5 ∧
        ((NewProductStore u1 u2 u3 u4 u5).GetAll).Perm (mockProducts u1 u2 u3 u4 u5)) := by
  have hids : (NewProductStore u1 u2 u3 u4 u5).GetAll.map Product.ID
      = (NewProductStore u1 u2 u3 u4 u5).products.keys :=
    GetAll_ids_eq_keys (filed_NewProductStore u1 u2 u3 u4 u5)
  have hnodup := (NewProductStore u1 u2 u3 u4 u5).products.keys_nodup
  have hsub : ∀ p ∈ (NewProductStore u1 u2 u3 u4 u5).GetAll,
      p.ID ∈ [u1, u2, u3, u4, u5] := by
    intro p hp
    have hmem : p.ID ∈ (NewProductStore u1 u2 u3 u4 u5).GetAll.map Product.ID :=
      List.mem_map_of_mem _ hp
    rw [hids] at hmem
    exact (NewProductStore_mem_keys u1 u2 u3 u4 u5 p.ID).mp hmem
  refine ⟨?_, ?_, hsub, ?_, ?_, ?_⟩
  · have hlen : (NewProductStore u1 u2 u3 u4 u5).GetAll.length
        = (NewProductStore u1 u2 u3 u4 u5).products.keys.length := by
      rw [← hids, List.length_map]
    have hle : (NewProductStore u1 u2 u3 u4 u5).products.keys.length
        ≤ [u1, u2, u3, u4, u5].length :=
      (List.subperm_of_subset hnodup
        (fun k hk => (NewProductStore_mem_keys u1 u2 u3 u4 u5 k).mp hk)).length_le
    rw [hlen]
    exact hle
  · rw [hids]
    exact hnodup
  · intro u hu
    have hk : u ∈ (NewProductStore u1 u2 u3 u4 u5).GetAll.map Product.ID := by
      rw [hids]
      exact (NewProductStore_mem_keys u1 u2 u3 u4 u5 u).mpr hu
    obtain ⟨p, hp, hpu⟩ := List.mem_map.mp hk
    exact ⟨p, hp, hpu⟩
  · intro hne p hp
    exact hne p.ID (hsub p hp)
  · intro hnd
    rw [NewProductStore_GetAll_eq u1 u2 u3 u4 u5 hnd]
    exact ⟨by simp [mockProducts], List.reverse_perm _⟩

theorem NewProductStore_GetAll_witness :
    (∀ u ∈ [sampleUUID, sampleUUID2, sampleUUID3, sampleUUID4, sampleUUID5], u ≠ "") ∧
      [sampleUUID, sampleUUID2, sampleUUID3, sampleUUID4, sampleUUID5].Nodup ∧
      (∀ p ∈ (NewProductStore sampleUUID sampleUUID2 sampleUUID3 sampleUUID4
        sampleUUID5).GetAll, p.ID ≠ "") ∧
      ((NewProductStore sampleUUID sampleUUID2 sampleUUID3 sampleUUID4
          sampleUUID5).GetAll.length = 5 ∧
        ((NewProductStore sampleUUID sampleUUID2 sampleUUID3 sampleUUID4
          sampleUUID5).GetAll).Perm
          (mockProducts sampleUUID sampleUUID2 sampleUUID3 sampleUUID4 sampleUUID5)) :=
  ⟨by decide, by decide,
    (NewProductStore_GetAll sampleUUID sampleUUID2 sampleUUID3 sampleUUID4
      sampleUUID5).2.2.2.2.1 (by decide),
    (NewProductStore_GetAll sampleUUID sampleUUID2 sampleUUID3 sampleUUID4
      sampleUUID5).2.2.2.2.2 (by decide)⟩

/-- C9: in every store reachable from `NewProductStore` by `Create`, `Update`
and `Delete` calls, each stored record is filed under its own id, and so the
records that `GetAll` returns have pairwise different ids. -/
theorem Reachable_ids_unique (s : ProductStore) (h : Reachable s) :
    (∀ k p, s.products.lookup k = some p → p.ID = k) ∧
      (∀ k, (s.GetByID k).2 = true → (s.GetByID k).1.ID = k) ∧
      (s.GetAll.map Product.ID).Nodup := by
  have hf := filed_of_Reachable h
  refine ⟨hf, ?_, ?_⟩
  · intro k hk
    cases hl : s.products.lookup k with
    | none => simp [ProductStore.GetByID, hl] at hk
    | some p =>
      rw [GetByID_of_lookup_some hl]
      exact hf k p hl
  · rw [GetAll_ids_eq_keys hf]
    exact s.products.keys_nodup

theorem Reachable_ids_unique_witness :
    Reachable
        ((((sampleStore.Create sampleProduct "id-6").1.Update "id-2" namelessProduct).1).Delete
          "id-1").1 ∧
      (((((sampleStore.Create sampleProduct "id-6").1.Update "id-2" namelessProduct).1).Delete
          "id-1").1.GetAll.map Product.ID).Nodup :=
  ⟨Reachable.delete _ _ (Reachable.update _ _ _ (Reachable.create _ _ _
      (Reachable.init "id-1" "id-2" "id-3" "id-4" "id-5"))),
    (Reachable_ids_unique _ (Reachable.delete _ _ (Reachable.update _ _ _
      (Reachable.create _ _ _ (Reachable.init "id-1" "id-2" "id-3" "id-4" "id-5"))))).2.2⟩

/-! ## Routing -/

/-- C10, as stated, fails: `GET /api/unknown` matches none of the patterns that
`main` registers, so the router never runs and the mux answers with its own
plain-text 404 page; and `POST /api/health`, which is no row of the routing
table either, is answered 200 by the health handler. -/
theorem ServeHTTP_unknown_path_not_json :
    (ServeHTTP "id-6" 0 sampleServer (Request.mk "GET" "/api/unknown" none)).2.Body
        = some (Payload.text "404 page not found\n") ∧
      (ServeHTTP "id-6" 0 sampleServer (Request.mk "GET" "/api/unknown" none)).2.Body
        ≠ some (Payload.stringMap [("error", "Endpoint not found")]) ∧
      (ServeHTTP "id-6" 0 sampleServer (Request.mk "POST" "/api/health" none)).2.Status
        = some 200 ∧
      (ServeHTTP "id-6" 0 sampleServer (Request.mk "POST" "/api/health" none)).2.Body
        = some (Payload.healthMap "healthy" 0) := by
  decide

/-- C10, amended: a request whose path is `/api/products` or lies below
`/api/products/` and is in the canonical form that the mux serves without a
redirect, whose method is not `OPTIONS` and whose method and path match no row
of the routing table, is answered by the server as wired in `main` with 404
and (except for `HEAD`, whose answer carries no body) the body
`{"error":"Endpoint not found"}`, and the store is unchanged; the handler
registered for those paths, the router behind the CORS middleware, answers so
on every writer that has had no status written. -/
theorem ServeHTTP_unmatched_products_route (uuid : String) (now : Int) (s : Server)
    (r : Request)
    (hpath : r.Path = "/api/products" ∨ strings.HasPrefix r.Path "/api/products/" = true)
    (hclean : cleanPath r.Path = r.Path)
    (hopt : r.Method ≠ "OPTIONS")
    (h1 : ¬ (r.Path = "/api/products" ∧ (r.Method = "GET" ∨ r.Method = "POST")))
    (h2 : ¬ (strings.HasPrefix r.Path "/api/products/" = true ∧
      (r.Method = "GET" ∨ r.Method = "PUT" ∨ r.Method = "DELETE"))) :
    ((ServeHTTP uuid now s r).2.Status = some 404 ∧
      (ServeHTTP uuid now s r).2.Body =
        (if r.Method = "HEAD" then none
          else some (Payload.stringMap [("error", "Endpoint not found")])) ∧
      (ServeHTTP uuid now s r).1 = s) ∧
    (∀ w : ResponseWriter, w.Status = none →
      (Server.enableCORS (Server.router uuid) s w r).2.Status = some 404 ∧
      (Server.enableCORS (Server.router uuid) s w r).2.Body =
        some (Payload.stringMap [("error", "Endpoint not found")]) ∧
      (Server.enableCORS (Server.router uuid) s w r).1 = s) := by
  have hroute : ∀ w, Server.router uuid s w r =
      (s, writeError w StatusNotFound "Endpoint not found") := by
    intro w
    simp only [not_and_or, not_or] at h1 h2
    simp only [Server.router]
    rw [if_neg, if_neg, if_neg, if_neg, if_neg]
    · rintro ⟨ha, hb⟩
      rcases h2 with h | h
      · exact h ha
      · exact h.2.2 hb
    · rintro ⟨ha, hb⟩
      rcases h2 with h | h
      · exact h ha
      · exact h.2.1 hb
    · rintro ⟨ha, hb⟩
      rcases h2 with h | h
      · exact h ha
      · exact h.1 hb
    · rintro ⟨ha, hb⟩
      rcases h1 with h | h
      · exact h ha
      · exact h.2 hb
    · rintro ⟨ha, hb⟩
      rcases h1 with h | h
      · exact h ha
      · exact h.1 hb
  have hcors : ∀ w : ResponseWriter,
      Server.enableCORS (Server.router uuid) s w r =
      (s, writeError
        (((w.SetHeader "Access-Control-Allow-Origin" "*").SetHeader
          "Access-Control-Allow-Methods" "GET, POST, PUT, DELETE, OPTIONS").SetHeader
          "Access-Control-Allow-Headers" "Content-Type, Authorization")
        StatusNotFound "Endpoint not found") := by
    intro w
    simp only [Server.enableCORS, if_neg hopt, hroute]
  have hall : ∀ w : ResponseWriter, w.Status = none →
      (Server.enableCORS (Server.router uuid) s w r).2.Status = some 404 ∧
      (Server.enableCORS (Server.router uuid) s w r).2.Body =
        some (Payload.stringMap [("error", "Endpoint not found")]) ∧
      (Server.enableCORS (Server.router uuid) s w r).1 = s := by
    intro w hw
    rw [hcors]
    exact ⟨writeError_Status (by simpa [ResponseWriter.SetHeader] using hw) _ _,
      writeError_Body _ _ _, rfl⟩
  refine ⟨?_, hall⟩
  obtain ⟨hst, hbody, hstore⟩ := hall ResponseWriter.fresh rfl
  rw [ServeHTTP_of_ne_star uuid now s r (registered_ne_star (Or.inr hpath)),
    DefaultServeMux_products uuid now s _ r hpath hclean]
  by_cases hhead : r.Method = "HEAD"
  · refine ⟨?_, ?_, ?_⟩
    · rw [if_pos hhead]
      exact hst
    · simp only [if_pos hhead]
    · rw [if_pos hhead]
      exact hstore
  · refine ⟨?_, ?_, ?_⟩
    · rw [if_neg hhead]
      exact hst
    · rw [if_neg hhead, if_neg hhead]
      exact hbody
    · rw [if_neg hhead]
      exact hstore

theorem ServeHTTP_unmatched_products_route_witness :
    cleanPath (Request.mk "PATCH" "/api/products/id-1" none).Path = "/api/products/id-1" ∧
      ((ServeHTTP "id-6" 0 sampleServer
          (Request.mk "PATCH" "/api/products/id-1" none)).2.Status = some 404 ∧
        (ServeHTTP "id-6" 0 sampleServer
          (Request.mk "PATCH" "/api/products/id-1" none)).2.Body =
          (if (Request.mk "PATCH" "/api/products/id-1" none).Method = "HEAD" then none
            else some (Payload.stringMap [("error", "Endpoint not found")])) ∧
        (ServeHTTP "id-6" 0 sampleServer
          (Request.mk "PATCH" "/api/products/id-1" none)).1 = sampleServer) :=
  ⟨by decide,
    (ServeHTTP_unmatched_products_route "id-6" 0 sampleServer
      (Request.mk "PATCH" "/api/products/id-1" none) (by decide) (by decide) (by decide)
      (by decide) (by decide)).1⟩

/-! ## Response headers and the CORS middleware -/

theorem WriteHeader_Header (w : ResponseWriter) (statusCode : Nat) :
    (w.WriteHeader statusCode).Header = w.Header := by
  unfold ResponseWriter.WriteHeader
  split <;> rfl

theorem WriteHeader_Body (w : ResponseWriter) (statusCode : Nat) :
    (w.WriteHeader statusCode).Body = w.Body := by
  unfold ResponseWriter.WriteHeader
  split <;> rfl

theorem WriteHeader_Status {w : ResponseWriter} (hw : w.Status = none) (statusCode : Nat) :
    (w.WriteHeader statusCode).Status = some statusCode := by
  simp [ResponseWriter.WriteHeader, hw]

theorem writeJSON_Header (w : ResponseWriter) (status : Nat) (data : Payload) :
    (writeJSON w status data).Header = w.Header.Set "Content-Type" "application/json" := by
  simp only [writeJSON, ResponseWriter.Write, WriteHeader_Header]
  rfl

theorem writeError_Header (w : ResponseWriter) (status : Nat) (message : String) :
    (writeError w status message).Header =
      w.Header.Set "Content-Type" "application/json" :=
  writeJSON_Header w status _

theorem router_Header (uuid : String) (s : Server) (w : ResponseWriter) (r : Request) :
    (Server.router uuid s w r).2.Header =
      w.Header.Set "Content-Type" "application/json" := by
  simp only [Server.router, Server.handleGetProducts, Server.handleGetProduct,
    Server.handleCreateProduct, Server.handleUpdateProduct, Server.handleDeleteProduct]
  split_ifs <;> first
    | exact writeJSON_Header _ _ _
    | exact writeError_Header _ _ _
    | (split <;> first
        | exact writeError_Header _ _ _
        | (split_ifs <;> exact writeJSON_Header _ _ _))

theorem handleHealth_Header (now : Int) (s : Server) (w : ResponseWriter) (r : Request) :
    (Server.handleHealth now s w r).2.Header =
      w.Header.Set "Content-Type" "application/json" :=
  writeJSON_Header _ _ _

theorem productPath_ne_collection (id : String) : productPath id ≠ "/api/products" := by
  intro h
  have hd : (productPath id).data = "/api/products/".data ++ id.data := by
    simp [productPath]
  have hl := congrArg List.length hd
  rw [h, List.length_append] at hl
  have h13 : "/api/products".data.length = 13 := by decide
  have h14 : "/api/products/".data.length = 14 := by decide
  omega

theorem productPath_ne_health (id : String) : productPath id ≠ "/api/health" := by
  intro h
  have hp := HasPrefix_productPath id
  rw [h] at hp
  revert hp
  decide

theorem enableCORS_of_OPTIONS (next : HandlerFunc) (s : Server) (w : ResponseWriter)
    {r : Request} (hm : r.Method = "OPTIONS") :
    Server.enableCORS next s w r =
      (s, (((w.SetHeader "Access-Control-Allow-Origin" "*").SetHeader
          "Access-Control-Allow-Methods" "GET, POST, PUT, DELETE, OPTIONS").SetHeader
          "Access-Control-Allow-Headers" "Content-Type, Authorization").WriteHeader
        StatusOK) := by
  simp only [Server.enableCORS, if_pos hm]

theorem enableCORS_of_ne_OPTIONS (next : HandlerFunc) (s : Server) (w : ResponseWriter)
    {r : Request} (hm : r.Method ≠ "OPTIONS") :
    Server.enableCORS next s w r =
      next s (((w.SetHeader "Access-Control-Allow-Origin" "*").SetHeader
          "Access-Control-Allow-Methods" "GET, POST, PUT, DELETE, OPTIONS").SetHeader
          "Access-Control-Allow-Headers" "Content-Type, Authorization") r := by
  simp only [Server.enableCORS, if_neg hm]

theorem cors_lookup (w : ResponseWriter) :
    (((w.SetHeader "Access-Control-Allow-Origin" "*").SetHeader
        "Access-Control-Allow-Methods" "GET, POST, PUT, DELETE, OPTIONS").SetHeader
        "Access-Control-Allow-Headers" "Content-Type, Authorization").Header.lookup
        "Access-Control-Allow-Origin" = some "*" ∧
      (((w.SetHeader "Access-Control-Allow-Origin" "*").SetHeader
        "Access-Control-Allow-Methods" "GET, POST, PUT, DELETE, OPTIONS").SetHeader
        "Access-Control-Allow-Headers" "Content-Type, Authorization").Header.lookup
        "Access-Control-Allow-Methods" = some "GET, POST, PUT, DELETE, OPTIONS" ∧
      (((w.SetHeader "Access-Control-Allow-Origin" "*").SetHeader
        "Access-Control-Allow-Methods" "GET, POST, PUT, DELETE, OPTIONS").SetHeader
        "Access-Control-Allow-Headers" "Content-Type, Authorization").Header.lookup
        "Access-Control-Allow-Headers" = some "Content-Type, Authorization" := by
  simp only [ResponseWriter.SetHeader, Header.Set]
  refine ⟨?_, ?_, ?_⟩
  · rw [AList.lookup_insert_ne (by decide), AList.lookup_insert_ne (by decide),
      AList.lookup_insert]
  · rw [AList.lookup_insert_ne (by decide), AList.lookup_insert]
  · rw [AList.lookup_insert]

theorem cors_lookup_after_json (w : ResponseWriter) :
    (w.Header.lookup "Access-Control-Allow-Origin" = some "*" ∧
      w.Header.lookup "Access-Control-Allow-Methods"
        = some "GET, POST, PUT, DELETE, OPTIONS" ∧
      w.Header.lookup "Access-Control-Allow-Headers"
        = some "Content-Type, Authorization") →
    ((w.Header.Set "Content-Type" "application/json").lookup
        "Access-Control-Allow-Origin" = some "*" ∧
      (w.Header.Set "Content-Type" "application/json").lookup
        "Access-Control-Allow-Methods" = some "GET, POST, PUT, DELETE, OPTIONS" ∧
      (w.Header.Set "Content-Type" "application/json").lookup
        "Access-Control-Allow-Headers" = some "Content-Type, Authorization") := by
  rintro ⟨h1, h2, h3⟩
  simp only [Header.Set]
  refine ⟨?_, ?_, ?_⟩
  · rw [AList.lookup_insert_ne (by decide)]
    exact h1
  · rw [AList.lookup_insert_ne (by decide)]
    exact h2
  · rw [AList.lookup_insert_ne (by decide)]
    exact h3

/-- C11, as stated, fails: `OPTIONS /api/unknown` matches none of the patterns
that `main` registers, so the CORS middleware never runs; the mux answers 404
with its plain-text page and without the CORS headers. -/
theorem ServeHTTP_OPTIONS_unknown_path :
    (ServeHTTP "id-6" 0 sampleServer (Request.mk "OPTIONS" "/api/unknown" none)).2.Status
        = some 404 ∧
      (ServeHTTP "id-6" 0 sampleServer (Request.mk "OPTIONS" "/api/unknown" none)).2.Body
        = some (Payload.text "404 page not found\n") ∧
      (ServeHTTP "id-6" 0 sampleServer
        (Request.mk "OPTIONS" "/api/unknown" none)).2.Header.lookup
          "Access-Control-Allow-Origin" = none := by
  decide

/-- C11, amended: for every store and every path that matches a pattern
registered in `main` (`/api/health`, `/api/products`, or a path below
`/api/products/`) and is in the canonical form that the mux serves without a
redirect, a request with method `OPTIONS` is answered with status 200, an
empty body and the three CORS headers, and the store is unchanged.  The
middleware answers so whatever handler it wraps and whatever the request body
is: the wrapped handler is not invoked, nothing is routed or decoded. -/
theorem OPTIONS_preflight (uuid : String) (now : Int) (s : Server) (r : Request)
    (hm : r.Method = "OPTIONS")
    (hpath : r.Path = "/api/health" ∨ r.Path = "/api/products" ∨
      strings.HasPrefix r.Path "/api/products/" = true)
    (hclean : cleanPath r.Path = r.Path) :
    ((ServeHTTP uuid now s r).2.Status = some 200 ∧
      (ServeHTTP uuid now s r).2.Body = none ∧
      (ServeHTTP uuid now s r).2.Header.lookup "Access-Control-Allow-Origin"
        = some "*" ∧
      (ServeHTTP uuid now s r).2.Header.lookup "Access-Control-Allow-Methods"
        = some "GET, POST, PUT, DELETE, OPTIONS" ∧
      (ServeHTTP uuid now s r).2.Header.lookup "Access-Control-Allow-Headers"
        = some "Content-Type, Authorization" ∧
      (ServeHTTP uuid now s r).1 = s) ∧
    (∀ (next other : HandlerFunc) (w : ResponseWriter) (b : Option Product),
      Server.enableCORS next s w r = Server.enableCORS other s w r ∧
      Server.enableCORS next s w { r with Body := b } = Server.enableCORS next s w r ∧
      (Server.enableCORS next s w r).1 = s ∧
      (Server.enableCORS next s w r).2.Body = w.Body ∧
      (Server.enableCORS next s w r).2.Header.lookup "Access-Control-Allow-Origin"
        = some "*" ∧
      (Server.enableCORS next s w r).2.Header.lookup "Access-Control-Allow-Methods"
        = some "GET, POST, PUT, DELETE, OPTIONS" ∧
      (Server.enableCORS next s w r).2.Header.lookup "Access-Control-Allow-Headers"
        = some "Content-Type, Authorization" ∧
      (w.Status = none → (Server.enableCORS next s w r).2.Status = some 200)) := by
  have hall : ∀ (next : HandlerFunc) (w : ResponseWriter),
      w.Status = none → w.Body = none →
      (Server.enableCORS next s w r).2.Status = some 200 ∧
      (Server.enableCORS next s w r).2.Body = none ∧
      (Server.enableCORS next s w r).2.Header.lookup "Access-Control-Allow-Origin"
        = some "*" ∧
      (Server.enableCORS next s w r).2.Header.lookup "Access-Control-Allow-Methods"
        = some "GET, POST, PUT, DELETE, OPTIONS" ∧
      (Server.enableCORS next s w r).2.Header.lookup "Access-Control-Allow-Headers"
        = some "Content-Type, Authorization" ∧
      (Server.enableCORS next s w r).1 = s := by
    intro next w hw hb
    rw [enableCORS_of_OPTIONS next s w hm]
    refine ⟨WriteHeader_Status (by simpa [ResponseWriter.SetHeader] using hw) _, ?_, ?_, ?_,
      ?_, rfl⟩
    · rw [WriteHeader_Body]
      simpa [ResponseWriter.SetHeader] using hb
    · rw [WriteHeader_Header]
      exact (cors_lookup w).1
    · rw [WriteHeader_Header]
      exact (cors_lookup w).2.1
    · rw [WriteHeader_Header]
      exact (cors_lookup w).2.2
  have hhead : r.Method ≠ "HEAD" := by
    rw [hm]
    decide
  refine ⟨?_, ?_⟩
  · rcases ServeHTTP_registered_eq uuid now s r hpath hclean hhead with h | h
    · rw [h]
      exact hall _ ResponseWriter.fresh rfl rfl
    · rw [h]
      exact hall _ ResponseWriter.fresh rfl rfl
  · intro next other w b
    have hmb : ({ r with Body := b } : Request).Method = "OPTIONS" := hm
    refine ⟨?_, ?_, ?_, ?_, ?_, ?_, ?_, ?_⟩
    · rw [enableCORS_of_OPTIONS next s w hm, enableCORS_of_OPTIONS other s w hm]
    · rw [enableCORS_of_OPTIONS next s w hm, enableCORS_of_OPTIONS next s w hmb]
    · rw [enableCORS_of_OPTIONS next s w hm]
    · rw [enableCORS_of_OPTIONS next s w hm, WriteHeader_Body]
      rfl
    · rw [enableCORS_of_OPTIONS next s w hm, WriteHeader_Header]
      exact (cors_lookup w).1
    · rw [enableCORS_of_OPTIONS next s w hm, WriteHeader_Header]
      exact (cors_lookup w).2.1
    · rw [enableCORS_of_OPTIONS next s w hm, WriteHeader_Header]
      exact (cors_lookup w).2.2
    · intro hw
      rw [enableCORS_of_OPTIONS next s w hm]
      exact WriteHeader_Status (by simpa [ResponseWriter.SetHeader] using hw) _

theorem OPTIONS_preflight_witness :
    (ServeHTTP "id-6" 0 sampleServer
        (Request.mk "OPTIONS" "/api/products/id-1" (some sampleProduct))).2.Status
        = some 200 ∧
      (ServeHTTP "id-6" 0 sampleServer
        (Request.mk "OPTIONS" "/api/products/id-1" (some sampleProduct))).2.Body = none ∧
      (ServeHTTP "id-6" 0 sampleServer
        (Request.mk "OPTIONS" "/api/products/id-1" (some sampleProduct))).2.Header.lookup
          "Access-Control-Allow-Origin" = some "*" ∧
      (ServeHTTP "id-6" 0 sampleServer
        (Request.mk "OPTIONS" "/api/products/id-1" (some sampleProduct))).2.Header.lookup
          "Access-Control-Allow-Methods" = some "GET, POST, PUT, DELETE, OPTIONS" ∧
      (ServeHTTP "id-6" 0 sampleServer
        (Request.mk "OPTIONS" "/api/products/id-1" (some sampleProduct))).2.Header.lookup
          "Access-Control-Allow-Headers" = some "Content-Type, Authorization" ∧
      (ServeHTTP "id-6" 0 sampleServer
        (Request.mk "OPTIONS" "/api/products/id-1" (some sampleProduct))).1
        = sampleServer :=
  (OPTIONS_preflight "id-6" 0 sampleServer
    (Request.mk "OPTIONS" "/api/products/id-1" (some sampleProduct)) rfl (by decide)
    (by decide)).1

/-! ## Product id in the path -/

theorem router_GET_product (uuid : String) (s : Server) (w : ResponseWriter)
    {r : Request} {id : String} (hm : r.Method = "GET") (hp : r.Path = productPath id)
    (hne : id ≠ "") :
    Server.router uuid s w r =
      (s, if (s.store.GetByID id).2 = true then
          writeJSON w StatusOK (Payload.product (s.store.GetByID id).1)
        else writeError w StatusNotFound "Product not found") := by
  have hroute : Server.router uuid s w r = Server.handleGetProduct s w r := by
    simp [Server.router, hm, hp, productPath_ne_collection, HasPrefix_productPath]
  rw [hroute]
  simp only [Server.handleGetProduct, hp, TrimPrefix_productPath, if_neg hne]
  cases (s.store.GetByID id).2 <;> simp

theorem router_PUT_product (uuid : String) (s : Server) (w : ResponseWriter)
    {r : Request} {id : String} {p : Product} (hm : r.Method = "PUT")
    (hp : r.Path = productPath id) (hne : id ≠ "") (hb : r.Body = some p) :
    Server.router uuid s w r =
      ({ store := (s.store.Update id p).1 },
        if (s.store.Update id p).2.2 = true then
          writeJSON w StatusOK (Payload.product (s.store.Update id p).2.1)
        else writeError w StatusNotFound "Product not found") := by
  have hroute : Server.router uuid s w r = Server.handleUpdateProduct s w r := by
    simp [Server.router, hm, hp, productPath_ne_collection, HasPrefix_productPath]
  rw [hroute]
  simp only [Server.handleUpdateProduct, hp, TrimPrefix_productPath, if_neg hne, hb]
  cases (s.store.Update id p).2.2 <;> simp

theorem router_DELETE_product (uuid : String) (s : Server) (w : ResponseWriter)
    {r : Request} {id : String} (hm : r.Method = "DELETE")
    (hp : r.Path = productPath id) (hne : id ≠ "") :
    Server.router uuid s w r =
      ({ store := (s.store.Delete id).1 },
        if (s.store.Delete id).2 = true then
          writeJSON w StatusOK
            (Payload.stringMap [("message", "Product deleted successfully")])
        else writeError w StatusNotFound "Product not found") := by
  have hroute : Server.router uuid s w r = Server.handleDeleteProduct s w r := by
    simp [Server.router, hm, hp, productPath_ne_collection, HasPrefix_productPath]
  rw [hroute]
  simp only [Server.handleDeleteProduct, hp, TrimPrefix_productPath, if_neg hne]
  cases (s.store.Delete id).2 <;> simp

theorem router_empty_id (uuid : String) (s : Server) (w : ResponseWriter)
    {r : Request} (hp : r.Path = "/api/products/")
    (hm : r.Method = "GET" ∨ r.Method = "PUT" ∨ r.Method = "DELETE") :
    Server.router uuid s w r =
      (s, writeError w StatusBadRequest "Product ID is required") := by
  have hpre : strings.HasPrefix "/api/products/" "/api/products/" = true := by decide
  have htrim : strings.TrimPrefix "/api/products/" "/api/products/" = "" := by decide
  rcases hm with h | h | h
  · simp [Server.router, Server.handleGetProduct, hp, h, hpre, htrim]
  · simp [Server.router, Server.handleUpdateProduct, hp, h, hpre, htrim]
  · simp [Server.router, Server.handleDeleteProduct, hp, h, hpre, htrim]

/-- C12: for each of the methods GET, PUT and DELETE, a request whose path is
exactly `/api/products/` is answered with status 400 and the body
`{"error":"Product ID is required"}` (so not with 404), whatever the request
body is, decodable or not, and the store is unchanged; and for a path with a
non-empty remainder after the prefix, the store operation is run on exactly
that remainder: `GetByID`, `Update` and `Delete` receive it whole. -/
theorem empty_id_is_bad_request (uuid : String) (now : Int) (s : Server) (r : Request)
    (hp : r.Path = "/api/products/")
    (hm : r.Method = "GET" ∨ r.Method = "PUT" ∨ r.Method = "DELETE") :
    ((ServeHTTP uuid now s r).2.Status = some 400 ∧
      (ServeHTTP uuid now s r).2.Body =
        some (Payload.stringMap [("error", "Product ID is required")]) ∧
      (ServeHTTP uuid now s r).1 = s) ∧
    (∀ w : ResponseWriter, w.Status = none →
      (Server.router uuid s w r).2.Status = some 400 ∧
      (Server.router uuid s w r).2.Body =
        some (Payload.stringMap [("error", "Product ID is required")]) ∧
      (Server.router uuid s w r).1 = s) ∧
    (∀ (id : String) (w : ResponseWriter) (q : Request), id ≠ "" →
      q.Path = productPath id →
      strings.TrimPrefix q.Path "/api/products/" = id ∧
      (q.Method = "GET" →
        Server.router uuid s w q =
          (s, if (s.store.GetByID id).2 = true then
              writeJSON w StatusOK (Payload.product (s.store.GetByID id).1)
            else writeError w StatusNotFound "Product not found")) ∧
      (q.Method = "PUT" → ∀ p, q.Body = some p →
        Server.router uuid s w q =
          ({ store := (s.store.Update id p).1 },
            if (s.store.Update id p).2.2 = true then
              writeJSON w StatusOK (Payload.product (s.store.Update id p).2.1)
            else writeError w StatusNotFound "Product not found")) ∧
      (q.Method = "DELETE" →
        Server.router uuid s w q =
          ({ store := (s.store.Delete id).1 },
            if (s.store.Delete id).2 = true then
              writeJSON w StatusOK
                (Payload.stringMap [("message", "Product deleted successfully")])
            else writeError w StatusNotFound "Product not found"))) := by
  have hopt : r.Method ≠ "OPTIONS" := by
    rcases hm with h | h | h <;> rw [h] <;> decide
  have hpre : strings.HasPrefix r.Path "/api/products/" = true := by
    rw [hp]
    decide
  refine ⟨?_, ?_, ?_⟩
  · have hclean : cleanPath r.Path = r.Path := by
      rw [hp]
      decide
    have hhead : r.Method ≠ "HEAD" := by
      rcases hm with h | h | h <;> rw [h] <;> decide
    rw [ServeHTTP_products_eq uuid now s r (Or.inr hpre) hclean hhead,
      enableCORS_of_ne_OPTIONS _ s _ hopt, router_empty_id uuid s _ hp hm]
    exact ⟨writeError_Status rfl _ _, writeError_Body _ _ _, rfl⟩
  · intro w hw
    rw [router_empty_id uuid s w hp hm]
    exact ⟨writeError_Status hw _ _, writeError_Body _ _ _, rfl⟩
  · intro id w q hne hq
    refine ⟨?_, ?_, ?_, ?_⟩
    · rw [hq]
      exact TrimPrefix_productPath id
    · intro hmq
      exact router_GET_product uuid s w hmq hq hne
    · intro hmq p hb
      exact router_PUT_product uuid s w hmq hq hne hb
    · intro hmq
      exact router_DELETE_product uuid s w hmq hq hne

theorem empty_id_is_bad_request_witness :
    ((ServeHTTP "id-6" 0 sampleServer
        (Request.mk "PUT" "/api/products/" none)).2.Status = some 400 ∧
      (ServeHTTP "id-6" 0 sampleServer
        (Request.mk "PUT" "/api/products/" none)).2.Body =
        some (Payload.stringMap [("error", "Product ID is required")]) ∧
      (ServeHTTP "id-6" 0 sampleServer
        (Request.mk "PUT" "/api/products/" none)).1 = sampleServer) ∧
    strings.TrimPrefix (Request.mk "GET" (productPath "id-1/x") none).Path
      "/api/products/" = "id-1/x" :=
  ⟨(empty_id_is_bad_request "id-6" 0 sampleServer
      (Request.mk "PUT" "/api/products/" none) rfl (by decide)).1,
    ((empty_id_is_bad_request "id-6" 0 sampleServer
      (Request.mk "PUT" "/api/products/" none) rfl (by decide)).2.2
      "id-1/x" ResponseWriter.fresh (Request.mk "GET" (productPath "id-1/x") none)
      (by decide) rfl).1⟩

/-- C13: for a non-empty id, `GET /api/products/{id}` answers 200 with the
stored record exactly when the id is a key of the store, and 404 with
`{"error":"Product not found"}` otherwise; the store is unchanged in both
cases.  `GetByID` returns the record with `true` for a key and `false`
otherwise. -/
theorem GET_product_by_id (uuid : String) (s : Server) (w : ResponseWriter)
    (r : Request) (id : String) (hne : id ≠ "") (hw : w.Status = none)
    (hm : r.Method = "GET") (hp : r.Path = productPath id) :
    ((Server.router uuid s w r).2.Status = some 200 ↔ id ∈ s.store.products) ∧
      (∀ p, s.store.products.lookup id = some p →
        (Server.router uuid s w r).2.Status = some 200 ∧
        (Server.router uuid s w r).2.Body = some (Payload.product p) ∧
        s.store.GetByID id = (p, true)) ∧
      (id ∉ s.store.products →
        (Server.router uuid s w r).2.Status = some 404 ∧
        (Server.router uuid s w r).2.Body =
          some (Payload.stringMap [("error", "Product not found")]) ∧
        (s.store.GetByID id).2 = false) ∧
      (Server.router uuid s w r).1 = s := by
  rw [router_GET_product uuid s w hm hp hne]
  have hfound : ∀ p, s.store.products.lookup id = some p →
      (s, if (s.store.GetByID id).2 = true then
          writeJSON w StatusOK (Payload.product (s.store.GetByID id).1)
        else writeError w StatusNotFound "Product not found") =
      (s, writeJSON w StatusOK (Payload.product p)) := by
    intro p hl
    rw [GetByID_of_lookup_some hl]
    simp
  have habsent : id ∉ s.store.products →
      (s, if (s.store.GetByID id).2 = true then
          writeJSON w StatusOK (Payload.product (s.store.GetByID id).1)
        else writeError w StatusNotFound "Product not found") =
      (s, writeError w StatusNotFound "Product not found") := by
    intro hn
    rw [GetByID_of_not_mem hn]
    simp
  refine ⟨?_, ?_, ?_, rfl⟩
  · by_cases hmem : id ∈ s.store.products
    · obtain ⟨q, hq⟩ := Option.isSome_iff_exists.mp (AList.lookup_isSome.mpr hmem)
      rw [hfound q hq]
      exact ⟨fun _ => hmem, fun _ => writeJSON_Status hw _ _⟩
    · rw [habsent hmem]
      refine ⟨fun h => ?_, fun h => absurd h hmem⟩
      rw [writeError_Status hw] at h
      simp [StatusNotFound] at h
  · intro p hl
    rw [hfound p hl]
    exact ⟨writeJSON_Status hw _ _, writeJSON_Body _ _ _, GetByID_of_lookup_some hl⟩
  · intro hn
    rw [habsent hn]
    refine ⟨writeError_Status hw _ _, writeError_Body _ _ _, ?_⟩
    rw [GetByID_of_not_mem hn]

theorem GET_product_by_id_witness :
    ((Server.router "id-6" sampleServer ResponseWriter.fresh
        (Request.mk "GET" (productPath "id-3") none)).2.Status = some 200 ↔
        "id-3" ∈ sampleServer.store.products) ∧
      (Server.router "id-6" sampleServer ResponseWriter.fresh
        (Request.mk "GET" (productPath "id-3") none)).1 = sampleServer :=
  ⟨(GET_product_by_id "id-6" sampleServer ResponseWriter.fresh
      (Request.mk "GET" (productPath "id-3") none) "id-3" (by decide) rfl rfl rfl).1,
    (GET_product_by_id "id-6" sampleServer ResponseWriter.fresh
      (Request.mk "GET" (productPath "id-3") none) "id-3" (by decide) rfl rfl rfl).2.2.2⟩

/-! ## Listing and updating -/

theorem GetAll_eq_keys_map (s : ProductStore) :
    s.GetAll = s.products.keys.map (fun k => (s.GetByID k).1) := by
  simp only [ProductStore.GetAll, AList.keys, List.keys, List.map_map]
  apply List.map_congr_left
  intro e he
  have hl : s.products.lookup e.1 = some e.2 := by
    have : e.2 ∈ s.products.lookup e.1 := AList.mem_lookup_iff.mpr he
    exact this
  simp [ProductStore.GetByID, hl]

theorem GetByID_found_iff (s : ProductStore) (k : String) :
    (s.GetByID k).2 = true ↔ k ∈ s.products := by
  by_cases hmem : k ∈ s.products
  · obtain ⟨q, hq⟩ := Option.isSome_iff_exists.mp (AList.lookup_isSome.mpr hmem)
    simp [GetByID_of_lookup_some hq, hmem]
  · simp [GetByID_of_not_mem hmem, hmem]

/-- C14: `GetAll` returns, up to order, exactly the stored records: its length
is the number of records, it lists one element per key of the store (the
record filed under that key, each key once), every element of it is a stored
record, and the store is not changed: the handler answers 200 with that list
and the same server state. -/
theorem GetAll_is_store_contents (s : ProductStore) :
    s.GetAll.length = s.len ∧
      s.GetAll.Perm (s.products.keys.map (fun k => (s.GetByID k).1)) ∧
      s.products.keys.Nodup ∧
      (∀ k, k ∈ s.products.keys ↔ (s.GetByID k).2 = true) ∧
      (∀ p, p ∈ s.GetAll ↔ ∃ k, s.GetByID k = (p, true)) ∧
      (∀ (w : ResponseWriter) (r : Request),
        (Server.handleGetProducts { store := s } w r).1 = { store := s } ∧
        (Server.handleGetProducts { store := s } w r).2.Body =
          some (Payload.products s.GetAll) ∧
        (w.Status = none →
          (Server.handleGetProducts { store := s } w r).2.Status = some 200)) := by
  refine ⟨?_, ?_, s.products.keys_nodup, ?_, ?_, ?_⟩
  · simp [ProductStore.GetAll, ProductStore.len]
  · rw [← GetAll_eq_keys_map]
  · intro k
    rw [GetByID_found_iff]
    exact AList.mem_keys.symm
  · intro p
    constructor
    · intro hp
      rw [GetAll_eq_keys_map, List.mem_map] at hp
      obtain ⟨k, hk, hkp⟩ := hp
      have hf : (s.GetByID k).2 = true :=
        (GetByID_found_iff s k).mpr (AList.mem_keys.mpr hk)
      exact ⟨k, Prod.ext hkp hf⟩
    · rintro ⟨k, hk⟩
      have hf : (s.GetByID k).2 = true := by rw [hk]
      have hmem : k ∈ s.products.keys :=
        AList.mem_keys.mp ((GetByID_found_iff s k).mp hf)
      rw [GetAll_eq_keys_map, List.mem_map]
      exact ⟨k, hmem, by rw [hk]⟩
  · intro w r
    refine ⟨rfl, writeJSON_Body _ _ _, fun hw => writeJSON_Status hw _ _⟩

/-- C15: for a non-empty id that is a key of the store and any decoded body,
also one with an empty name, a zero or negative price or an empty category,
`PUT /api/products/{id}` answers 200 and the store then holds under the id
exactly the body's name, price, category and `inStock`: update validates no
field. -/
theorem PUT_product_no_validation (uuid : String) (s : Server) (w : ResponseWriter)
    (r : Request) (id : String) (p : Product) (hne : id ≠ "")
    (hmem : id ∈ s.store.products) (hw : w.Status = none) (hm : r.Method = "PUT")
    (hp : r.Path = productPath id) (hb : r.Body = some p) :
    (Server.router uuid s w r).2.Status = some 200 ∧
      (Server.router uuid s w r).2.Body =
        some (Payload.product
          { ID := id, Name := p.Name, Price := p.Price, Category := p.Category,
            InStock := p.InStock }) ∧
      (Server.router uuid s w r).1.store.GetByID id =
        ({ ID := id, Name := p.Name, Price := p.Price, Category := p.Category,
           InStock := p.InStock }, true) := by
  rw [router_PUT_product uuid s w hm hp hne hb, Update_of_mem p hmem]
  refine ⟨writeJSON_Status hw _ _, writeJSON_Body _ _ _, ?_⟩
  apply GetByID_of_lookup_some
  simp

theorem PUT_product_no_validation_witness :
    (Product.zero.Name = "" ∧ Product.zero.Price ≤ 0 ∧ Product.zero.Category = "") ∧
      (Server.router "id-6" sampleServer ResponseWriter.fresh
        (Request.mk "PUT" (productPath "id-3") (some Product.zero))).2.Status
        = some 200 ∧
      (Server.router "id-6" sampleServer ResponseWriter.fresh
        (Request.mk "PUT" (productPath "id-3") (some Product.zero))).2.Body =
        some (Payload.product
          { ID := "id-3", Name := "", Price := 0, Category := "", InStock := false }) ∧
      (Server.router "id-6" sampleServer ResponseWriter.fresh
        (Request.mk "PUT" (productPath "id-3") (some Product.zero))).1.store.GetByID "id-3" =
        ({ ID := "id-3", Name := "", Price := 0, Category := "", InStock := false }, true) :=
  ⟨by decide,
    PUT_product_no_validation "id-6" sampleServer ResponseWriter.fresh
      (Request.mk "PUT" (productPath "id-3") (some Product.zero)) "id-3" Product.zero
      (by decide) (by decide) rfl rfl rfl rfl⟩

/-! ## CORS headers on every handler response -/

/-- C16, as stated, fails: the 404 that answers `GET /api/unknown` comes from
the mux, not from a handler behind the CORS middleware, and carries none of
the three headers. -/
theorem ServeHTTP_unknown_path_no_cors :
    (ServeHTTP "id-6" 0 sampleServer (Request.mk "GET" "/api/unknown" none)).2.Status
        = some 404 ∧
      (ServeHTTP "id-6" 0 sampleServer
        (Request.mk "GET" "/api/unknown" none)).2.Header.lookup
          "Access-Control-Allow-Origin" = none ∧
      (ServeHTTP "id-6" 0 sampleServer
        (Request.mk "GET" "/api/unknown" none)).2.Header.lookup
          "Access-Control-Allow-Methods" = none ∧
      (ServeHTTP "id-6" 0 sampleServer
        (Request.mk "GET" "/api/unknown" none)).2.Header.lookup
          "Access-Control-Allow-Headers" = none := by
  decide

/-- C16, amended: every response to a request whose path matches a pattern
registered in `main` (`/api/health`, `/api/products`, or a path below
`/api/products/`) and is in the canonical form that the mux serves without a
redirect, error responses included (400 for a bad body or a missing id, 404
for an unknown product, 404 for an unmatched method), carries
`Access-Control-Allow-Origin: *`,
`Access-Control-Allow-Methods: GET, POST, PUT, DELETE, OPTIONS` and
`Access-Control-Allow-Headers: Content-Type, Authorization`. -/
theorem registered_paths_carry_cors (uuid : String) (now : Int) (s : Server)
    (r : Request)
    (hpath : r.Path = "/api/health" ∨ r.Path = "/api/products" ∨
      strings.HasPrefix r.Path "/api/products/" = true)
    (hclean : cleanPath r.Path = r.Path) :
    (ServeHTTP uuid now s r).2.Header.lookup "Access-Control-Allow-Origin"
        = some "*" ∧
      (ServeHTTP uuid now s r).2.Header.lookup "Access-Control-Allow-Methods"
        = some "GET, POST, PUT, DELETE, OPTIONS" ∧
      (ServeHTTP uuid now s r).2.Header.lookup "Access-Control-Allow-Headers"
        = some "Content-Type, Authorization" := by
  by_cases hm : r.Method = "OPTIONS"
  · have hopt : ∀ next : HandlerFunc,
        (Server.enableCORS next s ResponseWriter.fresh r).2.Header =
          (((ResponseWriter.fresh.SetHeader "Access-Control-Allow-Origin" "*").SetHeader
            "Access-Control-Allow-Methods" "GET, POST, PUT, DELETE, OPTIONS").SetHeader
            "Access-Control-Allow-Headers" "Content-Type, Authorization").Header := by
      intro next
      rw [enableCORS_of_OPTIONS next s _ hm]
      exact WriteHeader_Header _ _
    rcases ServeHTTP_registered_Header uuid now s r hpath hclean with h | h
    · rw [h, hopt]
      exact cors_lookup _
    · rw [h, hopt]
      exact cors_lookup _
  · rcases ServeHTTP_registered_Header uuid now s r hpath hclean with h | h
    · rw [h, enableCORS_of_ne_OPTIONS _ s _ hm, handleHealth_Header]
      exact cors_lookup_after_json _ (cors_lookup _)
    · rw [h, enableCORS_of_ne_OPTIONS _ s _ hm, router_Header]
      exact cors_lookup_after_json _ (cors_lookup _)

theorem registered_paths_carry_cors_witness :
    (ServeHTTP "id-6" 0 sampleServer
        (Request.mk "GET" "/api/products/no-such-id" none)).2.Status = some 404 ∧
      ((ServeHTTP "id-6" 0 sampleServer
        (Request.mk "GET" "/api/products/no-such-id" none)).2.Header.lookup
          "Access-Control-Allow-Origin" = some "*" ∧
      (ServeHTTP "id-6" 0 sampleServer
        (Request.mk "GET" "/api/products/no-such-id" none)).2.Header.lookup
          "Access-Control-Allow-Methods" = some "GET, POST, PUT, DELETE, OPTIONS" ∧
      (ServeHTTP "id-6" 0 sampleServer
        (Request.mk "GET" "/api/products/no-such-id" none)).2.Header.lookup
          "Access-Control-Allow-Headers" = some "Content-Type, Authorization") :=
  ⟨by decide,
    registered_paths_carry_cors "id-6" 0 sampleServer
      (Request.mk "GET" "/api/products/no-such-id" none) (by decide) (by decide)⟩

theorem GetAll_is_store_contents_witness :
    sampleStore.GetAll.length = sampleStore.len ∧
      (Server.handleGetProducts { store := sampleStore } ResponseWriter.fresh
        (Request.mk "GET" "/api/products" none)).2.Status = some 200 :=
  ⟨(GetAll_is_store_contents sampleStore).1,
    ((GetAll_is_store_contents sampleStore).2.2.2.2.2 ResponseWriter.fresh
      (Request.mk "GET" "/api/products" none)).2.2 rfl⟩

/-! ## Frame conditions and retries -/

theorem len_insert_of_not_mem {s : ProductStore} {k : String} (v : Product)
    (h : k ∉ s.products) :
    ProductStore.len { products := s.products.insert k v } = s.len + 1 := by
  simp only [ProductStore.len, AList.insert_entries_of_neg h, List.length_cons]

theorem len_insert_of_mem {s : ProductStore} {k : String} (v : Product)
    (h : k ∈ s.products) :
    ProductStore.len { products := s.products.insert k v } = s.len := by
  have hk : k ∈ s.products.keys := AList.mem_keys.mp h
  have hpos : 0 < s.products.keys.length := List.length_pos_of_mem hk
  rw [len_eq_keys_length, len_eq_keys_length, AList.keys_insert, List.length_cons,
    List.length_erase_of_mem hk]
  omega

theorem GetByID_insert_ne (s : ProductStore) {k j : String} (v : Product) (h : j ≠ k) :
    ProductStore.GetByID { products := s.products.insert k v } j = s.GetByID j := by
  simp [ProductStore.GetByID, AList.lookup_insert_ne h]

theorem Update_Update (s : ProductStore) (id : String) (p : Product) :
    (s.Update id p).1.Update id p = s.Update id p := by
  by_cases hmem : id ∈ s.products
  · have hmem2 : id ∈ (ProductStore.mk
        (s.products.insert id { p with ID := id })).products := by
      simp [AList.mem_insert]
    rw [Update_of_mem p hmem, Update_of_mem p hmem2]
    simp [AList.insert_insert]
  · rw [Update_of_not_mem p hmem, Update_of_not_mem p hmem]

theorem Delete_Delete (s : ProductStore) (id : String) :
    ((s.Delete id).1.Delete id).1 = (s.Delete id).1 := by
  by_cases hj : id ∈ s.products
  · have hg : id ∉ (ProductStore.mk (s.products.erase id)).products := by
      simp [AList.mem_erase]
    rw [Delete_of_mem hj, Delete_of_not_mem hg]
  · rw [Delete_of_not_mem hj, Delete_of_not_mem hj]

/-- C17, as stated, fails for `Update`: there is no store, id and product for
which applying `Update(id, p)` twice gives another store or another result
than applying it once. -/
theorem Update_twice_is_Update_once :
    ¬ ∃ (s : ProductStore) (id : String) (p : Product),
      (s.Update id p).1.Update id p ≠ s.Update id p := by
  rintro ⟨s, id, p, h⟩
  exact h (Update_Update s id p)

/-- C17, amended: a repeated `Delete` leaves the same store as a single one,
the read handlers leave the store as it is, and `Update` is idempotent as
well: applying `Update(id, p)` twice gives the same store and the same result
as applying it once.  `Create` is not idempotent: a second `Create` of the
same input draws another id and, when that id is new, leaves a record that a
single `Create` does not leave, one record more, and returns another record. -/
theorem retries (s : ProductStore) :
    (∀ id, ((s.Delete id).1.Delete id).1 = (s.Delete id).1) ∧
      (∀ (w : ResponseWriter) (r : Request),
        (Server.handleGetProduct { store := s } w r).1 = { store := s } ∧
        (Server.handleGetProducts { store := s } w r).1 = { store := s }) ∧
      (∀ id p, (s.Update id p).1.Update id p = s.Update id p) ∧
      (∀ (p : Product) (g1 g2 : String), g1 ≠ g2 → g2 ∉ s.products →
        ((s.Create p g1).1.GetByID g2).2 = false ∧
        (((s.Create p g1).1.Create p g2).1.GetByID g2).2 = true ∧
        ((s.Create p g1).1.Create p g2).1.len = (s.Create p g1).1.len + 1 ∧
        ((s.Create p g1).1.Create p g2).2 ≠ (s.Create p g1).2) := by
  refine ⟨fun id => Delete_Delete s id, ?_, fun id p => Update_Update s id p, ?_⟩
  · intro w r
    refine ⟨?_, rfl⟩
    simp only [Server.handleGetProduct]
    split_ifs <;> rfl
  · intro p g1 g2 hne hnew
    have hnew1 : g2 ∉ (s.Create p g1).1.products := by
      simp only [ProductStore.Create, AList.mem_insert, not_or]
      exact ⟨fun h => hne h.symm, hnew⟩
    refine ⟨?_, ?_, ?_, ?_⟩
    · rw [GetByID_of_not_mem hnew1]
    · rw [GetByID_Create]
    · exact len_insert_of_not_mem _ hnew1
    · intro h
      have hid := congrArg Product.ID h
      exact hne hid.symm

theorem retries_witness :
    "id-6" ≠ "id-7" ∧ "id-7" ∉ sampleStore.products ∧
      (((sampleStore.Create sampleProduct "id-6").1.GetByID "id-7").2 = false ∧
        (((sampleStore.Create sampleProduct "id-6").1.Create sampleProduct "id-7").1.GetByID
          "id-7").2 = true ∧
        ((sampleStore.Create sampleProduct "id-6").1.Create sampleProduct "id-7").1.len =
          (sampleStore.Create sampleProduct "id-6").1.len + 1 ∧
        ((sampleStore.Create sampleProduct "id-6").1.Create sampleProduct "id-7").2 ≠
          (sampleStore.Create sampleProduct "id-6").2) :=
  ⟨by decide, by decide,
    (retries sampleStore).2.2.2 sampleProduct "id-6" "id-7" (by decide) (by decide)⟩

/-- C19: `Update` changes at most the record filed under its id: the store
has the same keys before and after, hence the same number of records, and
`GetByID` on any other id returns what it returned before. -/
theorem Update_frame (s : ProductStore) (id : String) (p : Product) :
    (∀ k, k ∈ (s.Update id p).1.products ↔ k ∈ s.products) ∧
      (s.Update id p).1.len = s.len ∧
      (∀ j, j ≠ id → (s.Update id p).1.GetByID j = s.GetByID j) := by
  by_cases hmem : id ∈ s.products
  · rw [Update_of_mem p hmem]
    refine ⟨?_, len_insert_of_mem _ hmem, fun j hj => GetByID_insert_ne s _ hj⟩
    intro k
    simp only [AList.mem_insert]
    constructor
    · rintro (h | h)
      · rw [h]
        exact hmem
      · exact h
    · exact fun h => Or.inr h
  · rw [Update_of_not_mem p hmem]
    exact ⟨fun k => Iff.rfl, rfl, fun j _ => rfl⟩

/-- C20: when the id that `Create` generates is not yet a key of the store,
`Create` adds exactly one record: the number of records grows by one and every
record stored before is still returned by `GetByID` under its id.  `Create`
checks for no collision: were the generated id already a key, the record
under it would be overwritten and the number of records would stay the same.
In either case the records under other ids are untouched. -/
theorem Create_frame (s : ProductStore) (p : Product) (g : String) :
    (g ∉ s.products →
        (s.Create p g).1.len = s.len + 1 ∧
        (∀ j, j ∈ s.products → (s.Create p g).1.GetByID j = s.GetByID j)) ∧
      (g ∈ s.products →
        (s.Create p g).1.len = s.len ∧
        (s.Create p g).1.GetByID g =
          ({ ID := g, Name := p.Name, Price := p.Price, Category := p.Category,
             InStock := true }, true)) ∧
      (∀ j, j ≠ g → (s.Create p g).1.GetByID j = s.GetByID j) := by
  refine ⟨fun hnew => ⟨len_insert_of_not_mem _ hnew, ?_⟩,
    fun hold => ⟨len_insert_of_mem _ hold, GetByID_Create s p g⟩,
    fun j hj => GetByID_insert_ne s _ hj⟩
  intro j hj
  have hne : j ≠ g := by
    intro h
    rw [h] at hj
    exact hnew hj
  exact GetByID_insert_ne s _ hne

theorem Create_frame_witness :
    ("id-6" ∉ sampleStore.products ∧
        (sampleStore.Create sampleProduct "id-6").1.len = sampleStore.len + 1) ∧
      ("id-3" ∈ sampleStore.products ∧
        (sampleStore.Create sampleProduct "id-3").1.len = sampleStore.len ∧
        (sampleStore.Create sampleProduct "id-3").1.GetByID "id-3" =
          ({ ID := "id-3", Name := "X", Price := 10, Category := "C",
             InStock := true }, true)) :=
  ⟨⟨by decide, ((Create_frame sampleStore sampleProduct "id-6").1 (by decide)).1⟩,
    ⟨by decide, (Create_frame sampleStore sampleProduct "id-3").2.1 (by decide)⟩⟩

end Backend
